import Mathlib

/-!
Verification of the two SQL query generators
`sql/clients_daily_scalar_aggregates.sql.py` and
`sql/clients_daily_histogram_aggregates.sql.py`.

Strings are modelled as lists of characters (`Str`). The Python standard
library operations the generators rely on (`str.replace`, `str.lower`,
`str.join`, `str.startswith`, `textwrap.dedent`) are given faithful
executable models below. The external schema service and probe registry
are modelled as explicit inputs (a list of schema field records and a list
of registry key strings); Python `set` objects become `Finset Str` and the
(unspecified) iteration order of a set becomes an explicit list argument
where the code iterates a set.
-/

set_option maxRecDepth 100000

abbrev Str := List Char

instance [DecidableEq ε] [DecidableEq α] : DecidableEq (Except ε α) := fun a b =>
  match a, b with
  | .ok x, .ok y => if h : x = y then .isTrue (by rw [h]) else .isFalse (by simp [h])
  | .error x, .error y => if h : x = y then .isTrue (by rw [h]) else .isFalse (by simp [h])
  | .ok _, .error _ => .isFalse (by simp)
  | .error _, .ok _ => .isFalse (by simp)

/-- Whitespace characters recognised by `textwrap.dedent` (space and tab). -/
def isWS (c : Char) : Bool := c = ' ' || c = '\t'

/-- Split a string at newline characters; always returns at least one line. -/
def splitNl : Str → List Str
  | [] => [[]]
  | c :: t =>
    if c = '\n' then [] :: splitNl t
    else
      match splitNl t with
      | [] => [[c]]
      | l :: ls => (c :: l) :: ls

/-- Join lines with newline characters (inverse of `splitNl`). -/
def joinNl : List Str → Str
  | [] => []
  | [l] => l
  | l :: ls => l ++ '\n' :: joinNl ls

/-- A line consisting only of whitespace and at least one character:
the lines cleared by `textwrap.dedent`'s `^[ \t]+$` substitution. -/
def isBlankLine (l : Str) : Bool := !l.isEmpty && l.all isWS

/-- dedent replaces whitespace-only lines by empty lines. -/
def clearLine (l : Str) : Str := if isBlankLine l then [] else l

/-- A line containing at least one non-whitespace character; only such lines
contribute an indent to dedent's margin computation. -/
def hasContent (l : Str) : Bool := l.any (fun c => !isWS c)

/-- The leading whitespace of a line. -/
def indentOf (l : Str) : Str := l.takeWhile isWS

/-- Longest common prefix of two lines (dedent's fallback margin rule). -/
def commonPre : Str → Str → Str
  | a :: x, b :: y => if a = b then a :: commonPre x y else []
  | _, _ => []

/-- One step of CPython `textwrap.dedent`'s margin computation. -/
def marginStep : Option Str → Str → Option Str
  | none, ind => some ind
  | some mg, ind =>
    if mg.isPrefixOf ind then some mg
    else if ind.isPrefixOf mg then some ind
    else some (commonPre mg ind)

/-- Margin of a list of (already cleared) lines, following CPython. -/
def computeMargin (ls : List Str) : Option Str :=
  (ls.filterMap (fun l => if hasContent l then some (indentOf l) else none)).foldl
    marginStep none

/-- Strip the margin from the start of one line where it matches
(the `re.sub(r'(?m)^' + margin, '', text)` step). -/
def stripMarginLine (mg : Str) (l : Str) : Str :=
  if mg.isPrefixOf l then l.drop mg.length else l

/-- The blank-line-clearing part of dedent on its own; `pydedent` agrees with
it whenever the computed margin is empty (e.g. when the first line starts
at column zero). -/
def clw (t : Str) : Str := joinNl ((splitNl t).map clearLine)

/-- Executable model of CPython `textwrap.dedent`: clear whitespace-only
lines, compute the common leading-whitespace margin of the content lines,
and remove it from the start of every line (skipped when the margin is
empty or `None`, matching the `if margin:` test). -/
def pydedent (t : Str) : Str :=
  match computeMargin ((splitNl t).map clearLine) with
  | none => clw t
  | some [] => clw t
  | some mg => joinNl (((splitNl t).map clearLine).map (stripMarginLine mg))

/-- Fuelled worker for `replaceL`; the fuel only has to dominate the length
of the string, so `replaceL` instantiates it with the length itself. -/
def replaceGo (pat rep : Str) : Nat → Str → Str
  | 0, s => s
  | fuel + 1, s =>
    match s with
    | [] => []
    | c :: t =>
      if pat.isPrefixOf s then rep ++ replaceGo pat rep fuel (s.drop pat.length)
      else c :: replaceGo pat rep fuel t

/-- Model of Python `str.replace` for a non-empty pattern: replace all
non-overlapping occurrences, scanning left to right. -/
def replaceL (pat rep s : Str) : Str := replaceGo pat rep s.length s

/-- Model of Python `str.lower` on the ASCII strings handled here. -/
def lowerL (s : Str) : Str := s.map Char.toLower

/-- Model of Python `sep.join(items)`. -/
def joinSep (sep : Str) : List Str → Str
  | [] => []
  | [x] => x
  | x :: xs => x ++ sep ++ joinSep sep xs

/-- Index of the first occurrence of `pat` in `s`, if any. -/
def firstIdx (pat : Str) : Str → Option Nat
  | [] => if pat.isPrefixOf [] then some 0 else none
  | c :: t => if pat.isPrefixOf (c :: t) then some 0 else (firstIdx pat t).map (· + 1)

/-!  Schema model.

A BigQuery schema field as returned by `bq show --schema --format=json`:
a JSON object with a `name`, an optional `type` and an optional nested
`fields` list. Dictionary accesses `field["type"]` / `field["fields"]`
(which raise `KeyError` in Python when the key is absent) are modelled by
`Except`-valued accessors; `field.get("type", None)` by the plain option.
-/

inductive SchemaField where
  | mk (name : Str) (type? : Option Str) (fields? : Option (List SchemaField))

def SchemaField.name : SchemaField → Str
  | .mk n _ _ => n

def SchemaField.type? : SchemaField → Option Str
  | .mk _ t _ => t

def SchemaField.fields? : SchemaField → Option (List SchemaField)
  | .mk _ _ f => f

/-- Python `field["type"]`: raises `KeyError` when absent. -/
def SchemaField.typeKey : SchemaField → Except String Str
  | f => match f.type? with
    | some t => .ok t
    | none => .error "KeyError: type"

/-- Python `field["fields"]`: raises `KeyError` when absent. -/
def SchemaField.fieldsKey : SchemaField → Except String (List SchemaField)
  | f => match f.fields? with
    | some l => .ok l
    | none => .error "KeyError: fields"

/-- Python `l[i]`: raises `IndexError` when out of range. -/
def listIdx (l : List α) (i : Nat) : Except String α :=
  match l.get? i with
  | some x => .ok x
  | none => .error "IndexError: list index out of range"

def sgen0c0 : Str := ("-- Query generated by: sql/clients_daily_scalar_aggregates.sql.py").data
def sgen0c1 : Str := ("        CREATE TEMP FUNCTION\n          udf_aggregate_map_sum(maps ANY TYPE) AS (STRUCT(ARRAY(\n              SELECT\n                AS STRUCT key,\n                SUM(value) AS value\n              FROM\n                UNNEST(maps),\n                UNNEST(key_value)\n              GROUP BY\n        key) AS key_value));\n\n        CREATE TEMP FUNCTION\n          udf_aggregate_keyed_map_sum(maps ANY TYPE) AS (STRUCT(ARRAY(\n              SELECT").data
def sgen0c2 : Str := ("                AS STRUCT key,\n                udf_aggregate_map_sum(ARRAY_AGG(value)) AS value\n              FROM\n                UNNEST(maps),\n                UNNEST(key_value)\n              GROUP BY\n        key) AS key_value));\n\n        WITH\n            -- normalize client_id and rank by document_id\n            numbered_duplicates AS (\n                SELECT\n                    ROW_NUMBER() OVER (\n                        PARTITION BY").data
def sgen0c3 : Str := ("                            client_id,\n                            submission_date_s3,\n                            document_id\n                        ORDER BY `timestamp`\n                        ASC\n                    ) AS _n,\n                    * REPLACE(LOWER(client_id) AS client_id)\n                FROM main_summary_v4\n                WHERE submission_date_s3 = @submission_date").data
def sgen0c4 : Str := ("                AND channel in (\"release\", \"esr\", \"beta\", \"aurora\", \"default\", \"nightly\")\n                AND client_id IS NOT NULL\n            ),\n\n\n            -- Deduplicating on document_id is necessary to get valid SUM values.\n            deduplicated AS (\n                SELECT * EXCEPT (_n)\n                FROM numbered_duplicates\n                WHERE _n = 1\n            ),\n").data
def sgen0c5 : Str := ("            ").data
def sgen0 : Str := sgen0c0 ++ ('\n' :: (sgen0c1 ++ ('\n' :: (sgen0c2 ++ ('\n' :: (sgen0c3 ++ ('\n' :: (sgen0c4 ++ ('\n' :: (sgen0c5))))))))))
def sgen1c0 : Str := ("").data
def sgen1c1 : Str := ("\n            -- Aggregate by client_id using windows\n            windowed AS (\n                SELECT\n                    ROW_NUMBER() OVER w1_unframed AS _n,\n                    submission_date_s3 as submission_date,\n                    client_id,\n                    os,\n                    SPLIT(app_version, '.')[OFFSET(0)] AS app_version,\n                    app_build_id,\n                    channel,").data
def sgen1c2 : Str := ("                    ").data
def sgen1 : Str := sgen1c0 ++ ('\n' :: (sgen1c1 ++ ('\n' :: (sgen1c2))))
def sgen2c0 : Str := ("").data
def sgen2c1 : Str := ("                FROM ").data
def sgen2 : Str := sgen2c0 ++ ('\n' :: (sgen2c1))
def sgen3c0 : Str := ("").data
def sgen3c1 : Str := ("                WINDOW\n                    -- Aggregations require a framed window\n                    w1 AS (\n                        PARTITION BY\n                            client_id,\n                            submission_date_s3,\n                            os,\n                            app_version,\n                            app_build_id,\n                            channel").data
def sgen3c2 : Str := ("                            ").data
def sgen3 : Str := sgen3c0 ++ ('\n' :: (sgen3c1 ++ ('\n' :: (sgen3c2))))
def sgen4c0 : Str := ("").data
def sgen4c1 : Str := ("                        ORDER BY `timestamp` ASC ROWS BETWEEN UNBOUNDED PRECEDING\n                        AND UNBOUNDED FOLLOWING\n                    ),\n\n                    -- ROW_NUMBER does not work on a framed window\n                    w1_unframed AS (\n                        PARTITION BY\n                            client_id,\n                            submission_date_s3,\n                            os,").data
def sgen4c2 : Str := ("                            app_version,\n                            app_build_id,\n                            channel").data
def sgen4c3 : Str := ("                            ").data
def sgen4 : Str := sgen4c0 ++ ('\n' :: (sgen4c1 ++ ('\n' :: (sgen4c2 ++ ('\n' :: (sgen4c3))))))
def sgen5c0 : Str := ("").data
def sgen5c1 : Str := ("                        ORDER BY `timestamp` ASC\n                    )\n            )").data
def sgen5c2 : Str := ("            ").data
def sgen5 : Str := sgen5c0 ++ ('\n' :: (sgen5c1 ++ ('\n' :: (sgen5c2))))
def sgen6c0 : Str := ("").data
def sgen6c1 : Str := ("        ").data
def sgen6 : Str := sgen6c0 ++ ('\n' :: (sgen6c1))
def shfrag0 : Str := ("('").data
def shfrag1 : Str := ("', 'summed-histogram', ARRAY_AGG(").data
def shfrag2 : Str := (") OVER w1)").data
def joinSepLitc0 : Str := (",").data
def joinSepLitc1 : Str := ("\t\t\t").data
def joinSepLit : Str := joinSepLitc0 ++ ('\n' :: (joinSepLitc1))
def svalArrDefault : Str := ("value ARRAY<STRUCT<key_value ARRAY<STRUCT<key INT64, value INT64>>>>").data
def svalArrString : Str := ("value ARRAY<STRUCT<key_value ARRAY<STRUCT<key STRING, value INT64>>>>").data
def svalArrKeyed : Str := ("value ARRAY<STRUCT<key_value ARRAY<STRUCT<key STRING, value STRUCT<key_value ARRAY<STRUCT<key INT64, value INT64>>>>>>>").data
def shprobes0c0 : Str := ("").data
def shprobes0c1 : Str := ("            ARRAY<STRUCT<\n                metric STRING,\n                agg_type STRING,").data
def shprobes0c2 : Str := ("                ").data
def shprobes0 : Str := shprobes0c0 ++ ('\n' :: (shprobes0c1 ++ ('\n' :: (shprobes0c2))))
def shprobes1c0 : Str := ("").data
def shprobes1c1 : Str := ("            >> [").data
def shprobes1c2 : Str := ("            ").data
def shprobes1 : Str := shprobes1c0 ++ ('\n' :: (shprobes1c1 ++ ('\n' :: (shprobes1c2))))
def shprobes2c0 : Str := ("").data
def shprobes2c1 : Str := ("        ] AS histogram_aggregates").data
def shprobes2c2 : Str := ("    ").data
def shprobes2 : Str := shprobes2c0 ++ ('\n' :: (shprobes2c1 ++ ('\n' :: (shprobes2c2))))
def shselect0c0 : Str := ("").data
def shselect0c1 : Str := ("        SELECT\n            * EXCEPT (_n) REPLACE (\n                ARRAY(\n                SELECT AS STRUCT\n                    * REPLACE (\n                        CASE\n                        WHEN agg_type = 'summed-histogram' THEN").data
def shselect0c2 : Str := ("                            ").data
def shselect0 : Str := shselect0c0 ++ ('\n' :: (shselect0c1 ++ ('\n' :: (shselect0c2))))
def shselect1c0 : Str := ("(value)").data
def shselect1c1 : Str := ("                        ELSE\n                            error(CONCAT('Unhandled agg_type: ', agg_type))\n                        END AS value\n                    )\n                FROM\n                    UNNEST(histogram_aggregates)\n                ) AS histogram_aggregates\n            )\n        FROM\n            windowed\n        WHERE\n            _n = 1").data
def shselect1c2 : Str := ("    ").data
def shselect1 : Str := shselect1c0 ++ ('\n' :: (shselect1c1 ++ ('\n' :: (shselect1c2))))
def aggFnKeyed : Str := ("udf_aggregate_keyed_map_sum").data
def aggFnPlain : Str := ("udf_aggregate_map_sum").data
def skfrag0 : Str := ("('").data
def skfrag1 : Str := ("', ").data
def skfrag2 : Str := (")").data
def skaddq0c0 : Str := ("").data
def skaddq0c1 : Str := ("        grouped_metrics AS\n          (select\n            timestamp,\n            client_id,\n            submission_date_s3,\n            os,\n            app_version,\n            app_build_id,\n            channel,\n            ARRAY<STRUCT<\n                name STRING,\n                value STRUCT<key_value ARRAY<STRUCT<key STRING, value INT64>>>\n            >>[").data
def skaddq0c2 : Str := ("              ").data
def skaddq0 : Str := skaddq0c0 ++ ('\n' :: (skaddq0c1 ++ ('\n' :: (skaddq0c2))))
def skaddq1c0 : Str := ("").data
def skaddq1c1 : Str := ("            ] as metrics\n          FROM deduplicated),\n\n          flattened_metrics AS\n            (SELECT\n              timestamp,\n              client_id,\n              submission_date_s3,\n              os,\n              app_version,\n              app_build_id,\n              channel,\n              metrics.name AS metric,\n              value.key AS key,\n              value.value AS value\n            FROM grouped_metrics").data
def skaddq1c2 : Str := ("            CROSS JOIN unnest(metrics) AS metrics,\n            unnest(metrics.value.key_value) AS value),").data
def skaddq1c3 : Str := ("    ").data
def skaddq1 : Str := skaddq1c0 ++ ('\n' :: (skaddq1c1 ++ ('\n' :: (skaddq1c2 ++ ('\n' :: (skaddq1c3))))))
def skprobesStringc0 : Str := ("").data
def skprobesStringc1 : Str := ("                metric,\n                key,\n                MAX(value) OVER w1 as max,\n                MIN(value) OVER w1 as min,\n                AVG(value) OVER w1 as avg,\n                SUM(value) OVER w1 as sum").data
def skprobesStringc2 : Str := ("    ").data
def skprobesString : Str := skprobesStringc0 ++ ('\n' :: (skprobesStringc1 ++ ('\n' :: (skprobesStringc2))))
def skselectc0 : Str := ("").data
def skselectc1 : Str := ("        select\n              client_id,\n              submission_date,\n              os,\n              app_version,\n              app_build_id,\n              channel,\n              ARRAY_CONCAT_AGG(\n                [(metric, key, 'max', max),\n                (metric, key, 'min', min),\n                (metric, key,  'avg', avg),\n                (metric, key, 'sum', sum)\n              ]) AS scalar_aggregates\n        from windowed").data
def skselectc2 : Str := ("        where _n = 1\n        group by 1,2,3,4,5,6").data
def skselectc3 : Str := ("    ").data
def skselect : Str := skselectc0 ++ ('\n' :: (skselectc1 ++ ('\n' :: (skselectc2 ++ ('\n' :: (skselectc3))))))
def skqueryingTable : Str := ("flattened_metrics").data
def skaddpartc0 : Str := (",").data
def skaddpartc1 : Str := ("                            metric,\n                            key").data
def skaddpartc2 : Str := ("    ").data
def skaddpart : Str := skaddpartc0 ++ ('\n' :: (skaddpartc1 ++ ('\n' :: (skaddpartc2))))
def ssfragmax0 : Str := ("('").data
def ssfragmax1 : Str := ("', 'max', max(CAST(").data
def ssfragmax2 : Str := (" AS INT64)) OVER w1, 0, 1000, 50)").data
def ssfragavg0 : Str := ("('").data
def ssfragavg1 : Str := ("', 'avg', avg(CAST(").data
def ssfragavg2 : Str := (" AS INT64)) OVER w1, 0, 1000, 50)").data
def ssfragmin0 : Str := ("('").data
def ssfragmin1 : Str := ("', 'min', min(CAST(").data
def ssfragmin2 : Str := (" AS INT64)) OVER w1, 0, 1000, 50)").data
def ssfragsum0 : Str := ("('").data
def ssfragsum1 : Str := ("', 'sum', sum(CAST(").data
def ssfragsum2 : Str := (" AS INT64)) OVER w1, 0, 1000, 50)").data
def ssfragfalse0 : Str := ("('").data
def ssfragfalse1 : Str := ("', 'false', sum(case when ").data
def ssfragfalse2 : Str := (" = False then 1 else 0 end) OVER w1, 0, 2, 2)").data
def ssfragtrue0 : Str := ("('").data
def ssfragtrue1 : Str := ("', 'true', sum(case when ").data
def ssfragtrue2 : Str := (" = True then 1 else 0 end) OVER w1, 0, 2, 2)").data
def ssprobes0c0 : Str := ("").data
def ssprobes0c1 : Str := ("            ARRAY<STRUCT<\n                metric STRING,\n                agg_type STRING,\n                value FLOAT64,\n                min_bucket INT64,\n                max_bucket INT64,\n                num_buckets INT64\n            >> [").data
def ssprobes0c2 : Str := ("                ").data
def ssprobes0 : Str := ssprobes0c0 ++ ('\n' :: (ssprobes0c1 ++ ('\n' :: (ssprobes0c2))))
def ssprobes1c0 : Str := ("").data
def ssprobes1c1 : Str := ("            ] AS scalar_aggregates").data
def ssprobes1c2 : Str := ("    ").data
def ssprobes1 : Str := ssprobes1c0 ++ ('\n' :: (ssprobes1c1 ++ ('\n' :: (ssprobes1c2))))
def ssselect0c0 : Str := ("").data
def ssselect0c1 : Str := ("        SELECT\n            * EXCEPT(_n)\n        FROM\n            windowed\n        WHERE\n            _n = 1").data
def ssselect0c2 : Str := ("    ").data
def ssselect0 : Str := ssselect0c0 ++ ('\n' :: (ssselect0c1 ++ ('\n' :: (ssselect0c2))))

def hgen0c0 : Str := ("-- Query generated by: sql/clients_daily_histogram_aggregates.sql.py").data
def hgen0c1 : Str := ("        \n        CREATE TEMPORARY FUNCTION get_keyval_pairs(y STRING)\n        RETURNS ARRAY<STRING>\n        LANGUAGE js AS\n        '''\n          var z = new Array();\n          node = JSON.parse(y);\n          Object.keys(node).map(function(key) \x7b\n            value = node[key].toString();\n            z.push(key + \":\" + value);\n          \x7d);\n          return z\n        ''';\n    \n\n        ").data
def hgen0c2 : Str := ("        -- convert a string like '[5, 6, 7]' to an array struct\n        CREATE TEMPORARY FUNCTION string_to_arr(y STRING)\n        RETURNS ARRAY<STRING>\n        LANGUAGE js AS\n        '''\n          return JSON.parse(y);\n        ''';\n    \n\n        CREATE TEMP FUNCTION udf_get_bucket_range(histograms ARRAY<STRING>) AS ((\n          WITH buckets AS (\n            SELECT\n              string_to_arr(JSON_EXTRACT(histogram, \"$.range\")) AS bucket_range,").data
def hgen0c3 : Str := ("              CAST(JSON_EXTRACT(histogram, \"$.bucket_count\") AS INT64) AS num_buckets\n            FROM UNNEST(histograms) AS histogram\n            WHERE histogram IS NOT NULL\n            LIMIT 1\n          )\n\n          SELECT AS STRUCT\n            CAST(bucket_range[OFFSET(0)] AS INT64) AS first_bucket,\n            CAST(bucket_range[OFFSET(1)] AS INT64) AS last_bucket,\n            num_buckets\n          FROM\n            buckets));\n\n").data
def hgen0c4 : Str := ("        CREATE TEMP FUNCTION udf_get_histogram_type(histograms ARRAY<STRING>) AS ((\n            SELECT\n              CASE CAST(JSON_EXTRACT(histogram, \"$.histogram_type\") AS INT64)\n                WHEN 0 THEN 'histogram-exponential'\n                WHEN 1 THEN 'histogram-linear'\n                WHEN 2 THEN 'histogram-boolean'\n                WHEN 3 THEN 'histogram-flag'\n                WHEN 4 THEN 'histogram-count'").data
def hgen0c5 : Str := ("                WHEN 5 THEN 'histogram-categorical'\n              END AS histogram_type\n            FROM UNNEST(histograms) AS histogram\n            WHERE histogram IS NOT NULL\n            LIMIT 1\n        ));\n\n        CREATE TEMP FUNCTION\n          udf_aggregate_json_sum(histograms ARRAY<STRING>) AS (ARRAY(\n              SELECT\n                AS STRUCT SPLIT(keyval, ':')[OFFSET(0)] AS key,").data
def hgen0c6 : Str := ("                SUM(CAST(SPLIT(keyval, ':')[OFFSET(1)] AS INT64)) AS value\n              FROM\n                UNNEST(histograms) AS histogram,\n                UNNEST(get_keyval_pairs(JSON_EXTRACT(histogram, \"$.values\"))) AS keyval\n              WHERE histogram IS NOT NULL\n              GROUP BY key));\n\n        WITH\n          -- normalize client_id and rank by document_id\n          numbered_duplicates AS (\n            SELECT").data
def hgen0c7 : Str := ("                ROW_NUMBER() OVER (\n                    PARTITION BY\n                        client_id,\n                        submission_timestamp,\n                        document_id\n                    ORDER BY submission_timestamp\n                    ASC\n                ) AS _n,\n                * REPLACE(LOWER(client_id) AS client_id)\n            FROM `moz-fx-data-shar-nonprod-efed.telemetry_live.main_v4`").data
def hgen0c8 : Str := ("            WHERE DATE(submission_timestamp) = '2019-07-17'\n            AND application.channel in (\n                \"release\", \"esr\", \"beta\", \"aurora\", \"default\", \"nightly\"\n            )\n            AND client_id IS NOT NULL\n          ),\n\n\n        -- Deduplicating on document_id is necessary to get valid SUM values.\n        deduplicated AS (\n            SELECT * EXCEPT (_n)\n            FROM numbered_duplicates\n            WHERE _n = 1\n        ),").data
def hgen0c9 : Str := ("").data
def hgen0c10 : Str := ("        ").data
def hgen0 : Str := hgen0c0 ++ ('\n' :: (hgen0c1 ++ ('\n' :: (hgen0c2 ++ ('\n' :: (hgen0c3 ++ ('\n' :: (hgen0c4 ++ ('\n' :: (hgen0c5 ++ ('\n' :: (hgen0c6 ++ ('\n' :: (hgen0c7 ++ ('\n' :: (hgen0c8 ++ ('\n' :: (hgen0c9 ++ ('\n' :: (hgen0c10))))))))))))))))))))
def hgen1c0 : Str := ("").data
def hgen1c1 : Str := ("\n        -- Aggregate by client_id using windows\n        windowed AS (").data
def hgen1c2 : Str := ("            ").data
def hgen1 : Str := hgen1c0 ++ ('\n' :: (hgen1c1 ++ ('\n' :: (hgen1c2))))
def hgen2c0 : Str := ("").data
def hgen2c1 : Str := ("        )").data
def hgen2c2 : Str := ("        ").data
def hgen2 : Str := hgen2c0 ++ ('\n' :: (hgen2c1 ++ ('\n' :: (hgen2c2))))
def hgen3c0 : Str := ("").data
def hgen3c1 : Str := ("        ").data
def hgen3 : Str := hgen3c0 ++ ('\n' :: (hgen3c1))
def hkfrag0 : Str := ("('").data
def hkfrag1 : Str := ("', payload.keyed_histograms.").data
def hkfrag2 : Str := (")").data
def hkprobesStringc0 : Str := ("").data
def hkprobesStringc1 : Str := ("        metric,\n        key,\n        ARRAY_AGG(value) OVER w1 as bucket_range,\n        ARRAY_AGG(value) OVER w1 as value").data
def hkprobesStringc2 : Str := ("    ").data
def hkprobesString : Str := hkprobesStringc0 ++ ('\n' :: (hkprobesStringc1 ++ ('\n' :: (hkprobesStringc2))))
def hkaddq0c0 : Str := ("").data
def hkaddq0c1 : Str := ("        grouped_metrics AS\n          (select\n            submission_timestamp,\n            DATE(submission_timestamp) as submission_date,\n            client_id,\n            normalized_os as os,\n            SPLIT(application.version, '.')[OFFSET(0)] AS app_version,\n            application.build_id AS app_build_id,\n            normalized_channel AS channel,\n            ARRAY<STRUCT<\n                name STRING,").data
def hkaddq0c2 : Str := ("                value ARRAY<STRUCT<key STRING, value STRING>>\n            >>[").data
def hkaddq0c3 : Str := ("              ").data
def hkaddq0 : Str := hkaddq0c0 ++ ('\n' :: (hkaddq0c1 ++ ('\n' :: (hkaddq0c2 ++ ('\n' :: (hkaddq0c3))))))
def hkaddq1c0 : Str := ("").data
def hkaddq1c1 : Str := ("            ] as metrics\n          FROM deduplicated),\n\n          flattened_metrics AS\n            (SELECT\n              submission_timestamp,\n              submission_date,\n              client_id,\n              os,\n              app_version,\n              app_build_id,\n              channel,\n              metrics.name AS metric,\n              value.key AS key,\n              value.value AS value\n            FROM grouped_metrics").data
def hkaddq1c2 : Str := ("            CROSS JOIN UNNEST(metrics) AS metrics\n            CROSS JOIN unnest(metrics.value) AS value),").data
def hkaddq1c3 : Str := ("    ").data
def hkaddq1 : Str := hkaddq1c0 ++ ('\n' :: (hkaddq1c1 ++ ('\n' :: (hkaddq1c2 ++ ('\n' :: (hkaddq1c3))))))
def hkwindowed0c0 : Str := ("").data
def hkwindowed0c1 : Str := ("        SELECT\n            ROW_NUMBER() OVER w1_unframed AS _n,\n            submission_date,\n            client_id,\n            os,\n            app_version,\n            app_build_id,\n            channel,").data
def hkwindowed0c2 : Str := ("            ").data
def hkwindowed0 : Str := hkwindowed0c0 ++ ('\n' :: (hkwindowed0c1 ++ ('\n' :: (hkwindowed0c2))))
def hkwindowed1c0 : Str := ("").data
def hkwindowed1c1 : Str := ("            FROM flattened_metrics\n            WINDOW\n                -- Aggregations require a framed window\n                w1 AS (\n                    PARTITION BY\n                        client_id,\n                        submission_date,\n                        os,\n                        app_version,\n                        app_build_id,\n                        channel,\n                        metric,\n                        key").data
def hkwindowed1c2 : Str := ("                    ORDER BY `submission_timestamp` ASC ROWS BETWEEN UNBOUNDED PRECEDING\n                    AND UNBOUNDED FOLLOWING\n                ),\n\n                -- ROW_NUMBER does not work on a framed window\n                w1_unframed AS (\n                    PARTITION BY\n                        client_id,\n                        submission_date,\n                        os,\n                        app_version,").data
def hkwindowed1c3 : Str := ("                        app_build_id,\n                        channel,\n                        metric,\n                        key\n                    ORDER BY `submission_timestamp` ASC)").data
def hkwindowed1c4 : Str := ("    ").data
def hkwindowed1 : Str := hkwindowed1c0 ++ ('\n' :: (hkwindowed1c1 ++ ('\n' :: (hkwindowed1c2 ++ ('\n' :: (hkwindowed1c3 ++ ('\n' :: (hkwindowed1c4))))))))
def hkselectc0 : Str := ("").data
def hkselectc1 : Str := ("        select\n            client_id,\n            submission_date,\n            os,\n            app_version,\n            app_build_id,\n            channel,\n            ARRAY_AGG(STRUCT<\n                metric STRING,\n                metric_type STRING,\n                key STRING,\n                agg_type STRING,\n                bucket_range STRUCT<\n                    first_bucket INT64,\n                    last_bucket INT64,").data
def hkselectc2 : Str := ("                    num_buckets INT64\n                >,\n                value ARRAY<STRUCT<key STRING, value INT64>>\n            >(\n                metric,\n                udf_get_histogram_type(bucket_range),\n                key,\n                '',\n                udf_get_bucket_range(bucket_range),\n                udf_aggregate_json_sum(value)\n            )) AS histogram_aggregates\n        from windowed\n        where _n = 1").data
def hkselectc3 : Str := ("        group by 1,2,3,4,5,6").data
def hkselectc4 : Str := ("    ").data
def hkselect : Str := hkselectc0 ++ ('\n' :: (hkselectc1 ++ ('\n' :: (hkselectc2 ++ ('\n' :: (hkselectc3 ++ ('\n' :: (hkselectc4))))))))
def hhfrag0 : Str := ("('").data
def hhfrag1 : Str := ("', 'histogram', '', 'summed-histogram', ARRAY_AGG(payload.histograms.").data
def hhfrag2 : Str := (") OVER w1, ARRAY_AGG(payload.histograms.").data
def hhfrag3 : Str := (") OVER w1)").data
def hhprobes0c0 : Str := ("").data
def hhprobes0c1 : Str := ("            ARRAY<STRUCT<\n                metric STRING,\n                metric_type STRING,\n                key STRING,\n                agg_type STRING,\n                bucket_range ARRAY<STRING>,\n                value ARRAY<STRING>\n            >> [").data
def hhprobes0c2 : Str := ("            ").data
def hhprobes0 : Str := hhprobes0c0 ++ ('\n' :: (hhprobes0c1 ++ ('\n' :: (hhprobes0c2))))
def hhprobes1c0 : Str := ("").data
def hhprobes1c1 : Str := ("        ] AS histogram_aggregates").data
def hhprobes1c2 : Str := ("    ").data
def hhprobes1 : Str := hhprobes1c0 ++ ('\n' :: (hhprobes1c1 ++ ('\n' :: (hhprobes1c2))))
def hhselect0c0 : Str := ("").data
def hhselect0c1 : Str := ("        SELECT\n            * EXCEPT (_n) REPLACE (\n                ARRAY(\n                SELECT AS STRUCT\n                    * REPLACE (\n                      udf_aggregate_json_sum(value) AS value,\n                      udf_get_bucket_range(bucket_range) AS bucket_range,\n                      udf_get_histogram_type(bucket_range) AS metric_type\n                    )\n                FROM\n                    UNNEST(histogram_aggregates)").data
def hhselect0c2 : Str := ("                ) AS histogram_aggregates\n            )\n        FROM\n            windowed\n        WHERE\n            _n = 1").data
def hhselect0c3 : Str := ("    ").data
def hhselect0 : Str := hhselect0c0 ++ ('\n' :: (hhselect0c1 ++ ('\n' :: (hhselect0c2 ++ ('\n' :: (hhselect0c3))))))
def hhwindowed0c0 : Str := ("").data
def hhwindowed0c1 : Str := ("        SELECT\n            ROW_NUMBER() OVER w1_unframed AS _n,\n            DATE(submission_timestamp) as submission_date,\n            client_id,\n            normalized_os as os,\n            SPLIT(application.version, '.')[OFFSET(0)] AS app_version,\n            application.build_id AS app_build_id,\n            normalized_channel AS channel,").data
def hhwindowed0c2 : Str := ("                ").data
def hhwindowed0 : Str := hhwindowed0c0 ++ ('\n' :: (hhwindowed0c1 ++ ('\n' :: (hhwindowed0c2))))
def hhwindowed1c0 : Str := ("").data
def hhwindowed1c1 : Str := ("            FROM deduplicated\n            WINDOW\n                -- Aggregations require a framed window\n                w1 AS (\n                    PARTITION BY\n                        client_id,\n                        DATE(submission_timestamp),\n                        normalized_os,\n                        SPLIT(application.version, '.')[OFFSET(0)],\n                        application.build_id,\n                        normalized_channel").data
def hhwindowed1c2 : Str := ("                    ORDER BY `submission_timestamp` ASC ROWS BETWEEN UNBOUNDED PRECEDING\n                    AND UNBOUNDED FOLLOWING\n                ),\n\n                -- ROW_NUMBER does not work on a framed window\n                w1_unframed AS (\n                    PARTITION BY\n                        client_id,\n                        DATE(submission_timestamp),\n                        normalized_os,").data
def hhwindowed1c3 : Str := ("                        SPLIT(application.version, '.')[OFFSET(0)],\n                        application.build_id,\n                        normalized_channel\n                    ORDER BY `submission_timestamp` ASC\n                )").data
def hhwindowed1c4 : Str := ("    ").data
def hhwindowed1 : Str := hhwindowed1c0 ++ ('\n' :: (hhwindowed1c1 ++ ('\n' :: (hhwindowed1c2 ++ ('\n' :: (hhwindowed1c3 ++ ('\n' :: (hhwindowed1c4))))))))

/-!  Probe classification, from `clients_daily_scalar_aggregates.sql.py`. -/

/-- Normalisation applied to registry keys on the scalar path
(`get_scalar_probes`): `x.replace("scalar/", "scalar_parent_").replace(".", "_")`. -/
def scalarNormalizeKey (x : Str) : Str :=
  replaceL (".").data ("_").data (replaceL ("scalar/").data ("scalar_parent_").data x)

/-- The set of normalised scalar registry probes:
`set(x.replace("scalar/", "scalar_parent_").replace(".", "_") for x in keys if x.startswith("scalar/"))`. -/
def scalarRegistrySet (keys : List Str) : Finset Str :=
  ((keys.filter (fun x => (("scalar/").data).isPrefixOf x)).map scalarNormalizeKey).toFinset

/-- Normalisation applied to registry keys on the histogram paths of both
generators: `x.replace("histogram/", "").replace(".", "_").lower()`. -/
def histNormalizeKey (x : Str) : Str :=
  lowerL (replaceL (".").data ("_").data (replaceL ("histogram/").data [] x))

/-- The set of normalised histogram registry probes. -/
def histRegistrySet (keys : List Str) : Finset Str :=
  ((keys.filter (fun x => (("histogram/").data).isPrefixOf x)).map histNormalizeKey).toFinset

/-- Accumulator of the schema loop in `get_scalar_probes`: the sets
`main_summary_scalars`, `main_summary_boolean_scalars`,
`main_summary_boolean_record_scalars` and `main_summary_record_scalars`. -/
structure ScalarAcc where
  scalars : Finset Str
  booleans : Finset Str
  boolRecord : Finset Str
  record : Finset Str

/-- One iteration of the schema loop of `get_scalar_probes` (lines 458-467):
branch on the `scalar_parent` name test and on `field["type"]`; the RECORD
branch inspects `field["fields"][0]["fields"][1]["type"]`, every access of
which can raise. -/
def scalarStep (acc : ScalarAcc) (f : SchemaField) : Except String ScalarAcc :=
  if (("scalar_parent").data).isPrefixOf f.name then do
    let t ← f.typeKey
    if t = ("INTEGER").data then
      pure { acc with scalars := insert f.name acc.scalars }
    else if t = ("BOOLEAN").data then
      pure { acc with booleans := insert f.name acc.booleans }
    else if t = ("RECORD").data then do
      let fs ← f.fieldsKey
      let f0 ← listIdx fs 0
      let f0s ← f0.fieldsKey
      let f1 ← listIdx f0s 1
      let t1 ← f1.typeKey
      if t1 = ("BOOLEAN").data then
        pure { acc with boolRecord := insert f.name acc.boolRecord }
      else
        pure { acc with record := insert f.name acc.record }
    else
      pure acc
  else
    pure acc

/-- The classified scalar probes (`get_scalar_probes`' result dictionary). -/
structure ScalarProbes where
  scalars : Finset Str
  booleans : Finset Str
  keyed : Finset Str

deriving instance DecidableEq for ScalarProbes

/-- `get_scalar_probes`, with the external schema and registry as inputs:
classify the schema fields, then intersect with the normalised registry keys. -/
def get_scalar_probes (schema : List SchemaField) (registryKeys : List Str) :
    Except String ScalarProbes := do
  let acc ← schema.foldlM scalarStep ⟨∅, ∅, ∅, ∅⟩
  let sp := scalarRegistrySet registryKeys
  pure ⟨sp ∩ acc.scalars, sp ∩ acc.booleans, sp ∩ acc.record⟩

/-- `get_histogram_type` (lines 194-216): classify a key/value field pair
into a histogram subtype. The keyed-histogram case dereferences
`keyval_fields[1]["fields"][0]["fields"][0]["type"]`, each step of which can
raise; a fall-through returns Python `None` (here `Option.none`). -/
def get_histogram_type (kv : List SchemaField) : Except String (Option Str) :=
  if kv.length = 2 ∧ ((kv.get? 0).bind SchemaField.type?) = some ("INTEGER").data
      ∧ ((kv.get? 1).bind SchemaField.type?) = some ("INTEGER").data then
    pure (some ("histogram").data)
  else if kv.length = 2 ∧ ((kv.get? 0).bind SchemaField.type?) = some ("STRING").data
      ∧ ((kv.get? 1).bind SchemaField.type?) = some ("INTEGER").data then
    pure (some ("string-histogram").data)
  else if kv.length = 2 ∧ ((kv.get? 0).bind SchemaField.type?) = some ("STRING").data
      ∧ ((kv.get? 1).bind SchemaField.type?) = some ("RECORD").data then do
    let f1 ← listIdx kv 1
    let fs ← f1.fieldsKey
    let g0 ← listIdx fs 0
    let gs ← g0.fieldsKey
    let h0 ← listIdx gs 0
    let t ← h0.typeKey
    if t = ("INTEGER").data then pure (some ("keyed-histogram").data) else pure none
  else
    pure none

/-- Prefix stripping of `get_histogram_probes` (scalar generator, lines
261-265): `field["name"].replace("histogram_content_", "").replace("histogram_parent_", "")`. -/
def stripHistPre (n : Str) : Str :=
  replaceL ("histogram_parent_").data [] (replaceL ("histogram_content_").data [] n)

/-- Python-dict update (`d[k] = v`): replace in place when the key exists,
append otherwise. -/
def dictSet (m : List (Str × Str)) (k v : Str) : List (Str × Str) :=
  if m.any (fun kv => kv.1 = k) then
    m.map (fun kv => if kv.1 = k then (k, v) else kv)
  else
    m ++ [(k, v)]

/-- Python-dict lookup returning an option. -/
def dictGet (m : List (Str × Str)) (k : Str) : Option Str :=
  (m.find? (fun kv => kv.1 = k)).map Prod.snd

/-- Accumulator of the schema loop in the scalar generator's
`get_histogram_probes`: the set `main_summary_histograms` (kept as the list
of added names) and the dict `main_summary_original_probes`. -/
structure HistAcc where
  names : List Str
  orig : List (Str × Str)

/-- The key/value fields of a histogram schema field (lines 251-256):
`subfields[0].get("fields", [])` when `field.get("fields", [])` is a
non-empty list, else `[]`. -/
def histKeyvals (f : SchemaField) : List SchemaField :=
  match f.fields? with
  | some (g :: _) => g.fields?.getD []
  | _ => []

/-- One iteration of the schema loop of the scalar generator's
`get_histogram_probes` (lines 247-267). -/
def histStep (htype : Str) (acc : HistAcc) (f : SchemaField) : Except String HistAcc :=
  if (("histogram").data).isPrefixOf f.name then do
    let ht ← get_histogram_type (histKeyvals f)
    if ht = some htype then
      pure ⟨acc.names ++ [stripHistPre f.name], dictSet acc.orig (stripHistPre f.name) f.name⟩
    else
      pure acc
  else
    pure acc

/-- The scalar generator's `get_histogram_probes`, with schema and registry
as inputs. `relevant_probes` is the intersection of the normalised registry
probes with the collected names, and the result maps each relevant
normalised name back through `main_summary_original_probes`. The set
comprehension over `relevant_probes` is modelled order-independently by
filtering the collected names and taking the image as a `Finset`. -/
def get_histogram_probes_scalarfile (schema : List SchemaField) (keys : List Str)
    (htype : Str) : Except String (Finset Str) := do
  let acc ← schema.foldlM (histStep htype) ⟨[], []⟩
  let hp := histRegistrySet keys
  pure ((acc.names.filter (fun n => n ∈ hp)).filterMap (dictGet acc.orig)).toFinset

/-!  Probe classification, from `clients_daily_histogram_aggregates.sql.py`. -/

/-- The loop of `get_histogram_probes` (histogram generator, lines 390-398)
selecting the sub-field of the `payload` field named `histogram_type`.
Later `payload` fields can overwrite an earlier find; a `payload` field
without a match leaves the previous value. `field["fields"]` can raise. -/
def findHistField (htype : Str) (schema : List SchemaField) :
    Except String (Option SchemaField) :=
  schema.foldlM
    (fun acc f =>
      if f.name = ("payload").data then do
        let fs ← f.fieldsKey
        match fs.find? (fun pf => pf.name == htype) with
        | some pf => pure (some pf)
        | none => pure acc
      else
        pure acc)
    none

/-- The histogram generator's `get_histogram_probes`. When no matching
payload sub-field exists, the Python function executes a bare `return`,
i.e. returns `None`: modelled by the `none` result. -/
def get_histogram_probes_histfile (schema : List SchemaField) (keys : List Str)
    (htype : Str) : Except String (Option (Finset Str)) := do
  let hf ← findHistField htype schema
  match hf with
  | none => pure none
  | some hfield =>
    pure (some ((histRegistrySet keys) ∩
      ((hfield.fields?.getD []).map SchemaField.name).toFinset))

/-!  Template composition, from `clients_daily_scalar_aggregates.sql.py`.

Where the Python code iterates over a `set` of probes, the composers below
take the iteration sequence as an explicit list argument.
-/

/-- One histogram fragment of the scalar generator (line 136):
`"('{metric}', 'summed-histogram', ARRAY_AGG({metric}) OVER w1)"`. -/
def shfragOf (probe : Str) : Str := shfrag0 ++ probe ++ shfrag1 ++ probe ++ shfrag2

/-- Result dictionary of the scalar generator's histogram composer. -/
structure HistSqlStrings where
  probes_string : Str
  select_clause : Str

/-- `get_histogram_probes_sql_strings` of the scalar generator
(lines 131-191). -/
def get_histogram_probes_sql_strings_scalarfile (probes : List Str) (htype : Str) :
    HistSqlStrings :=
  let probes_arr := joinSep joinSepLit (probes.map shfragOf)
  let value_arr :=
    if htype = ("string-histogram").data then svalArrString
    else if htype = ("keyed-histogram").data then svalArrKeyed
    else svalArrDefault
  let agg_function := if htype = ("keyed-histogram").data then aggFnKeyed else aggFnPlain
  { probes_string := shprobes0 ++ value_arr ++ shprobes1 ++ probes_arr ++ shprobes2,
    select_clause := shselect0 ++ agg_function ++ shselect1 }

/-- One keyed-scalar fragment (line 286): `f"('{probe}', {probe})"`. -/
def skfragOf (probe : Str) : Str := skfrag0 ++ probe ++ skfrag1 ++ probe ++ skfrag2

/-- The per-probe fragments of the scalar path of
`get_scalar_probes_sql_strings` (lines 374-401): four fragments (max, avg,
min, sum) per scalar probe followed by two (false, true) per boolean probe. -/
def scalarProbeStructs (scalars booleans : List Str) : List Str :=
  scalars.flatMap (fun p =>
    [ssfragmax0 ++ p ++ ssfragmax1 ++ p ++ ssfragmax2,
     ssfragavg0 ++ p ++ ssfragavg1 ++ p ++ ssfragavg2,
     ssfragmin0 ++ p ++ ssfragmin1 ++ p ++ ssfragmin2,
     ssfragsum0 ++ p ++ ssfragsum1 ++ p ++ ssfragsum2]) ++
  booleans.flatMap (fun p =>
    [ssfragfalse0 ++ p ++ ssfragfalse1 ++ p ++ ssfragfalse2,
     ssfragtrue0 ++ p ++ ssfragtrue1 ++ p ++ ssfragtrue2])

/-- Result dictionary of `get_scalar_probes_sql_strings`: the keyed-scalar
branch carries three extra keys that the plain branch leaves absent
(`main` reads them with `.get` defaults). -/
structure ScalarSqlStrings where
  probes_string : Str
  select_clause : Str
  additional_queries : Option Str
  additional_partitions : Option Str
  querying_table : Option Str

/-- `get_keyed_scalar_probes_sql_string` (lines 282-366). -/
def get_keyed_scalar_probes_sql_string (probes : List Str) : ScalarSqlStrings :=
  let probes_arr := joinSep joinSepLit (probes.map skfragOf)
  { probes_string := skprobesString,
    select_clause := skselect,
    additional_queries := some (skaddq0 ++ probes_arr ++ skaddq1),
    additional_partitions := some skaddpart,
    querying_table := some skqueryingTable }

/-- The iteration sequences of the probe sets consumed by
`get_scalar_probes_sql_strings` (`probes["scalars"]`, `probes["booleans"]`,
`probes["keyed"]`). -/
structure ScalarProbesL where
  scalars : List Str
  booleans : List Str
  keyed : List Str

/-- `get_scalar_probes_sql_strings` (lines 369-426). -/
def get_scalar_probes_sql_strings (probes : ScalarProbesL) (scalar_type : Str) :
    ScalarSqlStrings :=
  if scalar_type = ("keyed-scalar").data then
    get_keyed_scalar_probes_sql_string probes.keyed
  else
    let probes_arr := joinSep joinSepLit (scalarProbeStructs probes.scalars probes.booleans)
    { probes_string := ssprobes0 ++ probes_arr ++ ssprobes1,
      select_clause := ssselect0,
      additional_queries := none,
      additional_partitions := none,
      querying_table := none }

/-- `generate_sql` of the scalar generator (lines 24-128): the dedented
master template with its five slots (`additional_partitions` is
interpolated twice). The unused `opts` parameter is dropped. -/
def scalar_generate_sql (additional_queries aggregates querying_table
    additional_partitions select_clause : Str) : Str :=
  pydedent (sgen0 ++ additional_queries ++ sgen1 ++ aggregates ++ sgen2 ++
    querying_table ++ sgen3 ++ additional_partitions ++ sgen4 ++
    additional_partitions ++ sgen5 ++ select_clause ++ sgen6)

/-- `main` of the scalar generator (lines 487-512), from the classified
probe sequences onward (the classifier calls consume external data and are
modelled separately); mirrors the `.get` defaults used for the optional
dictionary keys and the `ValueError` on an unknown selector. -/
def scalarMain (aggType : Str) (scalarProbes : ScalarProbesL) (histProbes : List Str) :
    Except String Str :=
  if aggType = ("scalar").data ∨ aggType = ("keyed-scalar").data then
    let s := get_scalar_probes_sql_strings scalarProbes aggType
    pure (scalar_generate_sql (s.additional_queries.getD []) s.probes_string
      (s.querying_table.getD ("deduplicated").data) (s.additional_partitions.getD [])
      s.select_clause)
  else if aggType = ("histogram").data ∨ aggType = ("keyed-histogram").data
      ∨ aggType = ("string-histogram").data then
    let s := get_histogram_probes_sql_strings_scalarfile histProbes aggType
    pure (scalar_generate_sql [] s.probes_string (("deduplicated").data) []
      s.select_clause)
  else
    .error "ValueError: agg-type must be one of scalar/histogram"

/-!  Template composition, from `clients_daily_histogram_aggregates.sql.py`. -/

/-- One keyed-histogram fragment (line 145):
`f"('{probe}', payload.keyed_histograms.{probe})"`. -/
def hkfragOf (probe : Str) : Str := hkfrag0 ++ probe ++ hkfrag1 ++ probe ++ hkfrag2

/-- One plain-histogram fragment (lines 279-285), with the probe name
interpolated three times. -/
def hhfragOf (probe : Str) : Str :=
  hhfrag0 ++ probe ++ hhfrag1 ++ probe ++ hhfrag2 ++ probe ++ hhfrag3

/-- Result dictionary of the histogram generator's composers;
`additional_queries` is only set by the keyed branch. -/
structure HistFileSlots where
  additional_queries : Option Str
  windowed_clause : Str
  select_clause : Str

/-- `_get_keyed_histogram_sql` (lines 142-268). -/
def _get_keyed_histogram_sql (probes : List Str) : HistFileSlots :=
  let probes_arr := joinSep joinSepLit (probes.map hkfragOf)
  { additional_queries := some (hkaddq0 ++ probes_arr ++ hkaddq1),
    windowed_clause := hkwindowed0 ++ hkprobesString ++ hkwindowed1,
    select_clause := hkselect }

/-- The plain-histogram branch of the histogram generator's
`get_histogram_probes_sql_strings` (lines 277-364). -/
def histPlainSlots (probes : List Str) : HistFileSlots :=
  let probes_arr := joinSep joinSepLit (probes.map hhfragOf)
  let probes_string := hhprobes0 ++ probes_arr ++ hhprobes1
  { additional_queries := none,
    windowed_clause := hhwindowed0 ++ probes_string ++ hhwindowed1,
    select_clause := hhselect0 }

/-- Iterating a value that may be Python `None` (the classifier's bare
`return`): `for probe in probes` raises `TypeError` on `None`. -/
def iterProbes : Option (List Str) → Except String (List Str)
  | none => .error "TypeError: argument of type NoneType is not iterable"
  | some l => pure l

/-- `get_histogram_probes_sql_strings` of the histogram generator
(lines 271-364), applied to the possibly-`None` classifier result; both
branches begin by iterating the probes, which raises on `None`. -/
def get_histogram_probes_sql_strings_histfile (probes? : Option (List Str))
    (htype : Str) : Except String HistFileSlots :=
  if htype = ("keyed_histograms").data then do
    let probes ← iterProbes probes?
    pure (_get_keyed_histogram_sql probes)
  else do
    let probes ← iterProbes probes?
    pure (histPlainSlots probes)

/-- `generate_sql` of the histogram generator (lines 24-139): the dedented
master template; the two fixed local strings (`get_keyval_pairs`,
`string_to_arr`) are substituted into the leading literal piece. -/
def hist_generate_sql (additional_queries windowed_clause select_clause : Str) : Str :=
  pydedent (hgen0 ++ additional_queries ++ hgen1 ++ windowed_clause ++ hgen2 ++
    select_clause ++ hgen3)

/-- `main` of the histogram generator (lines 419-439), with the external
schema and registry as inputs and the iteration order of the classified
probe set as an explicit parameter `order`. -/
def histMain (order : Finset Str → List Str) (schema : List SchemaField)
    (keys : List Str) (aggType : Str) : Except String Str :=
  if aggType = ("histograms").data ∨ aggType = ("keyed_histograms").data then do
    let probes? ← get_histogram_probes_histfile schema keys aggType
    let slots ← get_histogram_probes_sql_strings_histfile (probes?.map order) aggType
    pure (hist_generate_sql (slots.additional_queries.getD []) slots.windowed_clause
      slots.select_clause)
  else
    .error "ValueError: agg-type must be one of histograms, keyed_histograms"

/-!  Lemmas about line splitting and the dedent model. -/

theorem splitNl_ne_nil (s : Str) : splitNl s ≠ [] := by
  cases s with
  | nil => simp [splitNl]
  | cons c t =>
    simp only [splitNl]
    split
    · simp
    · split <;> simp

theorem splitNl_append_cons (x y : Str) :
    splitNl (x ++ '\n' :: y) = splitNl x ++ splitNl y := by
  induction x with
  | nil => simp [splitNl]
  | cons c t ih =>
    by_cases hc : c = '\n'
    · subst hc
      simp [splitNl, ih]
    · obtain ⟨l0, ls0, h0⟩ : ∃ l0 ls0, splitNl t = l0 :: ls0 := by
        cases h : splitNl t with
        | nil => exact absurd h (splitNl_ne_nil t)
        | cons a b => exact ⟨a, b, rfl⟩
      simp [splitNl, hc, ih, h0]

theorem joinNl_append_of_ne_nil (ls1 ls2 : List Str) (h1 : ls1 ≠ []) (h2 : ls2 ≠ []) :
    joinNl (ls1 ++ ls2) = joinNl ls1 ++ '\n' :: joinNl ls2 := by
  induction ls1 with
  | nil => exact absurd rfl h1
  | cons x xs ih =>
    cases xs with
    | nil =>
      obtain ⟨y, ys, rfl⟩ : ∃ y ys, ls2 = y :: ys := by
        cases ls2 with
        | nil => exact absurd rfl h2
        | cons y ys => exact ⟨y, ys, rfl⟩
      rfl
    | cons x2 xs2 =>
      have ih2 := ih (by simp)
      calc joinNl ((x :: x2 :: xs2) ++ ls2)
          = x ++ '\n' :: joinNl ((x2 :: xs2) ++ ls2) := rfl
        _ = x ++ '\n' :: (joinNl (x2 :: xs2) ++ '\n' :: joinNl ls2) := by rw [ih2]
        _ = (x ++ '\n' :: joinNl (x2 :: xs2)) ++ '\n' :: joinNl ls2 := by simp
        _ = joinNl (x :: x2 :: xs2) ++ '\n' :: joinNl ls2 := rfl

theorem clw_append_cons (x y : Str) : clw (x ++ '\n' :: y) = clw x ++ '\n' :: clw y := by
  unfold clw
  rw [splitNl_append_cons, List.map_append,
    joinNl_append_of_ne_nil _ _ (by simpa using splitNl_ne_nil x)
      (by simpa using splitNl_ne_nil y)]

theorem splitNl_of_no_nl {s : Str} (h : '\n' ∉ s) : splitNl s = [s] := by
  induction s with
  | nil => simp [splitNl]
  | cons c t ih =>
    have hc : ¬(c = '\n') := fun hcc => h (hcc ▸ List.mem_cons_self c t)
    have ht : '\n' ∉ t := fun htt => h (List.mem_cons_of_mem c htt)
    simp [splitNl, hc, ih ht]

theorem clw_of_no_nl {s : Str} (h : '\n' ∉ s) : clw s = clearLine s := by
  unfold clw
  rw [splitNl_of_no_nl h]
  simp [joinNl]

theorem clearLine_of_hasContent {l : Str} (h : hasContent l = true) : clearLine l = l := by
  unfold clearLine
  cases hbl : isBlankLine l with
  | false => simp
  | true =>
    exfalso
    unfold isBlankLine at hbl
    rw [Bool.and_eq_true, List.all_eq_true] at hbl
    unfold hasContent at h
    rw [List.any_eq_true] at h
    obtain ⟨c, hc, hcw⟩ := h
    have := hbl.2 c hc
    simp [this] at hcw

theorem foldl_marginStep_nil (inds : List Str) :
    inds.foldl marginStep (some []) = some [] := by
  induction inds with
  | nil => rfl
  | cons i t ih =>
    have : marginStep (some []) i = some [] := by simp [marginStep]
    simpa [this] using ih

theorem computeMargin_zero_head {l0 : Str} (ls : List Str)
    (hc : hasContent l0 = true) (hi : indentOf l0 = []) :
    computeMargin (l0 :: ls) = some [] := by
  unfold computeMargin
  simp only [List.filterMap_cons, hc, if_pos, hi]
  rw [List.foldl_cons]
  have : marginStep none [] = some [] := rfl
  rw [this]
  exact foldl_marginStep_nil _

/-- When the first line of a text starts at column zero with real content,
`textwrap.dedent` computes an empty margin, so it only clears the
whitespace-only lines. -/
theorem pydedent_eq_clw {l0 r : Str} (hn : '\n' ∉ l0)
    (hc : hasContent l0 = true) (hi : indentOf l0 = []) :
    pydedent (l0 ++ '\n' :: r) = clw (l0 ++ '\n' :: r) := by
  unfold pydedent
  have hsp : splitNl (l0 ++ '\n' :: r) = l0 :: splitNl r := by
    rw [splitNl_append_cons, splitNl_of_no_nl hn]
    rfl
  have hclear : clearLine l0 = l0 := clearLine_of_hasContent hc
  have hm : computeMargin ((splitNl (l0 ++ '\n' :: r)).map clearLine) = some [] := by
    rw [hsp]
    simp only [List.map_cons, hclear]
    exact computeMargin_zero_head _ hc hi
  rw [hm]

/-!  Lemmas about `firstIdx` and substring occurrence. -/

theorem prefixOfBool_iff {p s : Str} : p.isPrefixOf s = true ↔ p <+: s := by simp

theorem prefix_of_append_of_le {m x z : Str} (h : m <+: x ++ z)
    (hl : m.length ≤ x.length) : m <+: x := by
  obtain ⟨r, hr⟩ := h
  set n := m.length with hn
  have hm : m = (x ++ z).take n := by
    rw [← hr, hn]
    exact (List.take_left m r).symm
  rw [List.take_append_eq_append_take, Nat.sub_eq_zero_of_le hl] at hm
  simp only [List.take_zero, List.append_nil] at hm
  refine ⟨x.drop n, ?_⟩
  rw [hm]
  exact List.take_append_drop _ x

theorem prefix_through_sep {m : Str} {c : Char} :
    ∀ {x y : Str}, m <+: (x ++ c :: y) → c ∉ m → m <+: x := by
  induction m with
  | nil => exact fun _ _ => ⟨_, List.nil_append _⟩
  | cons p ps ih =>
    intro x y h hc
    obtain ⟨r, hr⟩ := h
    cases x with
    | nil =>
      exfalso
      simp only [List.nil_append, List.cons_append] at hr
      injection hr with h1 _
      exact hc (h1 ▸ List.mem_cons_self p ps)
    | cons a t =>
      simp only [List.cons_append] at hr
      injection hr with h1 h2
      obtain ⟨r2, hr2⟩ := ih ⟨r, h2⟩ (fun hm => hc (List.mem_cons_of_mem p hm))
      exact ⟨r2, by rw [h1, List.cons_append, hr2]⟩

theorem fi_bound {pat : Str} : ∀ {s : Str} {i : Nat},
    firstIdx pat s = some i → i + pat.length ≤ s.length := by
  intro s
  induction s with
  | nil =>
    intro i h
    simp only [firstIdx] at h
    by_cases hp : pat.isPrefixOf [] = true
    · rw [if_pos hp] at h
      cases h
      simpa using (prefixOfBool_iff.mp hp).length_le
    · rw [if_neg hp] at h
      cases h
  | cons c t ih =>
    intro i h
    simp only [firstIdx] at h
    by_cases hp : pat.isPrefixOf (c :: t) = true
    · rw [if_pos hp] at h
      cases h
      simpa using (prefixOfBool_iff.mp hp).length_le
    · rw [if_neg hp] at h
      obtain ⟨i2, h2, rfl⟩ := Option.map_eq_some'.mp h
      have := ih h2
      simp only [List.length_cons]
      omega

theorem fi_append {pat z : Str} : ∀ {x : Str} {i : Nat},
    firstIdx pat x = some i → firstIdx pat (x ++ z) = some i := by
  intro x
  induction x with
  | nil =>
    intro i h
    simp only [firstIdx] at h
    by_cases hp : pat.isPrefixOf [] = true
    · rw [if_pos hp] at h
      cases h
      have hnil : pat = [] := List.prefix_nil.mp (prefixOfBool_iff.mp hp)
      subst hnil
      cases z with
      | nil => simp [firstIdx]
      | cons a b => simp [firstIdx]
    · rw [if_neg hp] at h
      cases h
  | cons c t ih =>
    intro i h
    simp only [firstIdx] at h
    by_cases hp : pat.isPrefixOf (c :: t) = true
    · rw [if_pos hp] at h
      cases h
      have hpre : pat <+: c :: (t ++ z) := by
        have : pat <+: (c :: t) ++ z := (prefixOfBool_iff.mp hp).trans ⟨z, rfl⟩
        simpa using this
      rw [List.cons_append]
      simp only [firstIdx]
      rw [if_pos (prefixOfBool_iff.mpr hpre)]
    · rw [if_neg hp] at h
      obtain ⟨i2, h2, rfl⟩ := Option.map_eq_some'.mp h
      have hlen : pat.length ≤ t.length := by
        have := fi_bound h2
        omega
      have hnp : ¬(pat.isPrefixOf (c :: (t ++ z)) = true) := by
        intro hcontra
        have hpre : pat <+: (c :: t) ++ z := by
          simpa using prefixOfBool_iff.mp hcontra
        have : pat <+: c :: t :=
          prefix_of_append_of_le hpre (by simpa using Nat.le_succ_of_le hlen)
        exact hp (prefixOfBool_iff.mpr this)
      rw [List.cons_append]
      simp only [firstIdx]
      rw [if_neg hnp, ih h2]
      rfl

theorem fi_skip {pat : Str} {c : Char} (hc : c ∉ pat) : ∀ {x y : Str},
    firstIdx pat x = none →
    firstIdx pat (x ++ c :: y) = (firstIdx pat y).map (· + (x.length + 1)) := by
  intro x
  induction x with
  | nil =>
    intro y h
    have hne : pat ≠ [] := by
      intro hp
      subst hp
      simp [firstIdx] at h
    have hnp : ¬(pat.isPrefixOf (c :: y) = true) := by
      intro hcontra
      obtain ⟨p, ps, rfl⟩ : ∃ p ps, pat = p :: ps := by
        cases pat with
        | nil => exact absurd rfl hne
        | cons p ps => exact ⟨p, ps, rfl⟩
      obtain ⟨r, hr⟩ := prefixOfBool_iff.mp hcontra
      rw [List.cons_append] at hr
      injection hr with h1 _
      exact hc (h1 ▸ List.mem_cons_self p ps)
    simp only [List.nil_append, firstIdx]
    rw [if_neg hnp]
    simp

  | cons a t ih =>
    intro y h
    simp only [firstIdx] at h
    by_cases hp : pat.isPrefixOf (a :: t) = true
    · rw [if_pos hp] at h
      cases h
    · rw [if_neg hp] at h
      have ht : firstIdx pat t = none := by
        cases hft : firstIdx pat t with
        | none => rfl
        | some v => rw [hft] at h; cases h
      have hnp : ¬(pat.isPrefixOf (a :: (t ++ c :: y)) = true) := by
        intro hcontra
        have hpre : pat <+: (a :: t) ++ c :: y := by
          simpa using prefixOfBool_iff.mp hcontra
        exact hp (prefixOfBool_iff.mpr (prefix_through_sep hpre hc))
      rw [List.cons_append]
      simp only [firstIdx]
      rw [if_neg hnp, ih ht]
      cases hfy : firstIdx pat y with
      | none => rfl
      | some j =>
        simp only [Option.map_some', List.length_cons, Option.some.injEq]
        omega

theorem fi_some_infix {pat : Str} : ∀ {s : Str} {i : Nat},
    firstIdx pat s = some i → pat <:+: s := by
  intro s
  induction s with
  | nil =>
    intro i h
    simp only [firstIdx] at h
    by_cases hp : pat.isPrefixOf [] = true
    · have := List.prefix_nil.mp (prefixOfBool_iff.mp hp)
      exact ⟨[], [], by simp [this]⟩
    · rw [if_neg hp] at h
      cases h
  | cons c t ih =>
    intro i h
    simp only [firstIdx] at h
    by_cases hp : pat.isPrefixOf (c :: t) = true
    · obtain ⟨r, hr⟩ := prefixOfBool_iff.mp hp
      exact ⟨[], r, by simpa using hr⟩
    · rw [if_neg hp] at h
      obtain ⟨i2, h2, rfl⟩ := Option.map_eq_some'.mp h
      obtain ⟨u, v, huv⟩ := ih h2
      exact ⟨c :: u, v, by rw [← huv]; rfl⟩

theorem infix_fi_isSome {pat : Str} : ∀ {s : Str},
    pat <:+: s → ∃ i, firstIdx pat s = some i := by
  intro s
  induction s with
  | nil =>
    intro h
    have hp : pat = [] := by
      obtain ⟨u, v, huv⟩ := h
      have h1 := List.append_eq_nil.mp huv
      exact (List.append_eq_nil.mp h1.1).2
    subst hp
    exact ⟨0, by simp [firstIdx]⟩
  | cons c t ih =>
    intro h
    by_cases hp : pat.isPrefixOf (c :: t) = true
    · exact ⟨0, by simp only [firstIdx]; rw [if_pos hp]⟩
    · have hinf : pat <:+: t := by
        rcases List.infix_cons_iff.mp h with h1 | h1
        · exact absurd (prefixOfBool_iff.mpr h1) hp
        · exact h1
      obtain ⟨i, hi⟩ := ih hinf
      exact ⟨i + 1, by simp only [firstIdx]; rw [if_neg hp, hi]; rfl⟩

/-!  Homomorphism forms of the blank-line clearing over explicit newline
boundaries, and glue lemmas for locating markers in decomposed output. -/

theorem clw_hom1 (a y : Str) : clw (a ++ '\n' :: y) = clw a ++ '\n' :: clw y :=
  clw_append_cons a y

theorem clw_hom2 (a b y : Str) :
    clw (a ++ (b ++ '\n' :: y)) = clw (a ++ b) ++ '\n' :: clw y := by
  rw [← List.append_assoc]
  exact clw_append_cons _ y

theorem clw_hom3 (a b c y : Str) :
    clw (a ++ (b ++ (c ++ '\n' :: y))) = clw (a ++ (b ++ c)) ++ '\n' :: clw y := by
  rw [← List.append_assoc, ← List.append_assoc]
  rw [clw_append_cons]
  rw [List.append_assoc]

theorem infix_append_left {m B : Str} (A : Str) (h : m <:+: B) : m <:+: A ++ B := by
  obtain ⟨u, v, huv⟩ := h
  exact ⟨A ++ u, v, by rw [← huv]; simp⟩

theorem infix_append_right {m B : Str} (C : Str) (h : m <:+: B) : m <:+: B ++ C := by
  obtain ⟨u, v, huv⟩ := h
  exact ⟨u, v ++ C, by rw [← huv]; simp⟩

theorem infix_cons_of {m B : Str} (c : Char) (h : m <:+: B) : m <:+: c :: B := by
  obtain ⟨u, v, huv⟩ := h
  exact ⟨c :: u, v, by rw [← huv]; rfl⟩

theorem fi_some_of_isSome {m s : Str} (h : (firstIdx m s).isSome = true) :
    ∃ i, firstIdx m s = some i :=
  Option.isSome_iff_exists.mp h

theorem fi_none_chain {m A T : Str} (hnl : '\n' ∉ m) (hA : firstIdx m A = none)
    (hT : firstIdx m T = none) : firstIdx m (A ++ '\n' :: T) = none := by
  rw [fi_skip hnl hA, hT]
  rfl

theorem fi_isSome_right {m A T : Str} (hnl : '\n' ∉ m) (hA : firstIdx m A = none)
    (hT : ∃ j, firstIdx m T = some j) : ∃ j, firstIdx m (A ++ '\n' :: T) = some j := by
  obtain ⟨j, hj⟩ := hT
  exact ⟨j + (A.length + 1), by rw [fi_skip hnl hA, hj]; rfl⟩

theorem fi_lt_of_decomp {a b P T : Str} (hnb : '\n' ∉ b)
    (hP : ∃ i, firstIdx a P = some i) (hbP : firstIdx b P = none)
    (hbT : ∃ j, firstIdx b T = some j) :
    ∃ i j, firstIdx a (P ++ '\n' :: T) = some i ∧
      firstIdx b (P ++ '\n' :: T) = some j ∧ i < j := by
  obtain ⟨i, hi⟩ := hP
  obtain ⟨j, hj⟩ := hbT
  refine ⟨i, j + (P.length + 1), fi_append hi, ?_, ?_⟩
  · rw [fi_skip hnb hbP, hj]
    rfl
  · have := fi_bound hi
    omega
theorem scalar_generate_sql_decomp (additional_queries aggregates querying_table additional_partitions select_clause : Str) :
    scalar_generate_sql additional_queries aggregates querying_table additional_partitions select_clause =
      clw sgen0c0 ++ ('\n' :: (clw sgen0c1 ++ ('\n' :: (clw sgen0c2 ++ ('\n' :: (clw sgen0c3 ++ ('\n' :: (clw sgen0c4 ++ ('\n' :: (clw (sgen0c5 ++ (additional_queries ++ sgen1c0)) ++ ('\n' :: (clw sgen1c1 ++ ('\n' :: (clw (sgen1c2 ++ (aggregates ++ sgen2c0)) ++ ('\n' :: (clw (sgen2c1 ++ (querying_table ++ sgen3c0)) ++ ('\n' :: (clw sgen3c1 ++ ('\n' :: (clw (sgen3c2 ++ (additional_partitions ++ sgen4c0)) ++ ('\n' :: (clw sgen4c1 ++ ('\n' :: (clw sgen4c2 ++ ('\n' :: (clw (sgen4c3 ++ (additional_partitions ++ sgen5c0)) ++ ('\n' :: (clw sgen5c1 ++ ('\n' :: (clw (sgen5c2 ++ (select_clause ++ sgen6c0)) ++ ('\n' :: (clw sgen6c1)))))))))))))))))))))))))))))))) := by
  unfold scalar_generate_sql sgen0 sgen1 sgen2 sgen3 sgen4 sgen5 sgen6
  simp only [List.append_assoc, List.cons_append]
  rw [pydedent_eq_clw (by decide) (by decide) (by decide)]
  simp only [clw_hom1, clw_hom2, clw_hom3]

theorem hist_generate_sql_decomp (additional_queries windowed_clause select_clause : Str) :
    hist_generate_sql additional_queries windowed_clause select_clause =
      clw hgen0c0 ++ ('\n' :: (clw hgen0c1 ++ ('\n' :: (clw hgen0c2 ++ ('\n' :: (clw hgen0c3 ++ ('\n' :: (clw hgen0c4 ++ ('\n' :: (clw hgen0c5 ++ ('\n' :: (clw hgen0c6 ++ ('\n' :: (clw hgen0c7 ++ ('\n' :: (clw hgen0c8 ++ ('\n' :: (clw hgen0c9 ++ ('\n' :: (clw (hgen0c10 ++ (additional_queries ++ hgen1c0)) ++ ('\n' :: (clw hgen1c1 ++ ('\n' :: (clw (hgen1c2 ++ (windowed_clause ++ hgen2c0)) ++ ('\n' :: (clw hgen2c1 ++ ('\n' :: (clw (hgen2c2 ++ (select_clause ++ hgen3c0)) ++ ('\n' :: (clw hgen3c1)))))))))))))))))))))))))))))) := by
  unfold hist_generate_sql hgen0 hgen1 hgen2 hgen3
  simp only [List.append_assoc, List.cons_append]
  rw [pydedent_eq_clw (by decide) (by decide) (by decide)]
  simp only [clw_hom1, clw_hom2, clw_hom3]


/-!  Small reduction lemmas for `Except` binds, used when reasoning about the
classifier folds. -/

theorem except_bind_ok (a : α) (f : α → Except ε β) :
    (Except.ok a >>= f : Except ε β) = f a := rfl

theorem except_bind_error (e : ε) (f : α → Except ε β) :
    ((Except.error e : Except ε α) >>= f : Except ε β) = .error e := rfl

theorem except_pure (a : α) : (pure a : Except ε α) = .ok a := rfl
/-!  Claim C8: totality of the histogram shape classifier. -/

/-- C8 counterexample: on a (STRING, RECORD) key/value pair whose record has
no nested `fields`, `get_histogram_type` raises a `KeyError` instead of
returning a no-match result, so the shape classifier is not a total
never-raising function as claimed. -/
theorem c8_counterexample :
    get_histogram_type
      [SchemaField.mk ("key").data (some ("STRING").data) none,
       SchemaField.mk ("value").data (some ("RECORD").data) none]
      = .error "KeyError: fields" := by decide

/-- C8 (amended): `get_histogram_type` is a pure function that, whenever it
does not raise, returns one of the three histogram subtype tags or the
no-match result `none`; it can raise only on a length-2 key/value pair whose
first field has type STRING and second field has type RECORD (the only case
whose nested `fields[0]["fields"][0]["type"]` chain is dereferenced and may
hit a missing key or index). -/
theorem c8_shape_classification (kv : List SchemaField) :
    (∃ r, get_histogram_type kv = .ok r ∧
       (r = none ∨ r = some ("histogram").data ∨ r = some ("string-histogram").data ∨
        r = some ("keyed-histogram").data)) ∨
    (∃ e, get_histogram_type kv = .error e ∧ kv.length = 2 ∧
       ((kv.get? 0).bind SchemaField.type?) = some ("STRING").data ∧
       ((kv.get? 1).bind SchemaField.type?) = some ("RECORD").data) := by
  by_cases hA : kv.length = 2 ∧
      ((kv.get? 0).bind SchemaField.type?) = some ("INTEGER").data ∧
      ((kv.get? 1).bind SchemaField.type?) = some ("INTEGER").data
  · exact .inl ⟨_, by unfold get_histogram_type; rw [if_pos hA]; rfl, .inr (.inl rfl)⟩
  · by_cases hB : kv.length = 2 ∧
        ((kv.get? 0).bind SchemaField.type?) = some ("STRING").data ∧
        ((kv.get? 1).bind SchemaField.type?) = some ("INTEGER").data
    · exact .inl ⟨_, by unfold get_histogram_type; rw [if_neg hA, if_pos hB]; rfl,
        .inr (.inr (.inl rfl))⟩
    · by_cases hC : kv.length = 2 ∧
          ((kv.get? 0).bind SchemaField.type?) = some ("STRING").data ∧
          ((kv.get? 1).bind SchemaField.type?) = some ("RECORD").data
      · unfold get_histogram_type
        rw [if_neg hA, if_neg hB, if_pos hC]
        cases h1 : listIdx kv 1 with
        | error e => exact .inr ⟨e, by rw [except_bind_error], hC.1, hC.2.1, hC.2.2⟩
        | ok f1 =>
          rw [except_bind_ok]
          cases h2 : f1.fieldsKey with
          | error e => exact .inr ⟨e, by rw [except_bind_error], hC.1, hC.2.1, hC.2.2⟩
          | ok fs =>
            rw [except_bind_ok]
            cases h3 : listIdx fs 0 with
            | error e => exact .inr ⟨e, by rw [except_bind_error], hC.1, hC.2.1, hC.2.2⟩
            | ok g0 =>
              rw [except_bind_ok]
              cases h4 : g0.fieldsKey with
              | error e => exact .inr ⟨e, by rw [except_bind_error], hC.1, hC.2.1, hC.2.2⟩
              | ok gs =>
                rw [except_bind_ok]
                cases h5 : listIdx gs 0 with
                | error e => exact .inr ⟨e, by rw [except_bind_error], hC.1, hC.2.1, hC.2.2⟩
                | ok h0 =>
                  rw [except_bind_ok]
                  cases h6 : h0.typeKey with
                  | error e => exact .inr ⟨e, by rw [except_bind_error], hC.1, hC.2.1, hC.2.2⟩
                  | ok t =>
                    rw [except_bind_ok]
                    by_cases ht : t = ("INTEGER").data
                    · rw [if_pos ht]
                      exact .inl ⟨_, rfl, .inr (.inr (.inr rfl))⟩
                    · rw [if_neg ht]
                      exact .inl ⟨_, rfl, .inl rfl⟩
      · exact .inl ⟨_, by unfold get_histogram_type; rw [if_neg hA, if_neg hB, if_neg hC]; rfl,
          .inl rfl⟩

/-!  Lemmas about the `str.replace` model, and claim C6 (name normalisation). -/

theorem replaceGo_nil (pat rep : Str) : ∀ f, replaceGo pat rep f [] = [] := by
  intro f
  cases f <;> rfl

theorem replaceGo_succ_cons (pat rep : Str) (f : Nat) (c : Char) (t : Str) :
    replaceGo pat rep (f + 1) (c :: t) =
      if pat.isPrefixOf (c :: t) then rep ++ replaceGo pat rep f ((c :: t).drop pat.length)
      else c :: replaceGo pat rep f t := rfl

theorem replaceGo_fuel {pat rep : Str} (hp : pat ≠ []) :
    ∀ f1 f2 s, s.length ≤ f1 → s.length ≤ f2 →
      replaceGo pat rep f1 s = replaceGo pat rep f2 s := by
  intro f1
  induction f1 with
  | zero =>
    intro f2 s h1 _
    have : s = [] := List.eq_nil_of_length_eq_zero (Nat.le_zero.mp h1)
    subst this
    rw [replaceGo_nil, replaceGo_nil]
  | succ g1 ih =>
    intro f2 s h1 h2
    cases s with
    | nil => rw [replaceGo_nil, replaceGo_nil]
    | cons c t =>
      cases f2 with
      | zero => simp at h2
      | succ g2 =>
        have hpl : 1 ≤ pat.length := List.length_pos.mpr hp
        rw [replaceGo_succ_cons, replaceGo_succ_cons]
        by_cases hpre : pat.isPrefixOf (c :: t) = true
        · rw [if_pos hpre, if_pos hpre]
          have hd : ((c :: t).drop pat.length).length ≤ g1 := by
            simp only [List.length_drop, List.length_cons]
            simp only [List.length_cons] at h1
            omega
          have hd2 : ((c :: t).drop pat.length).length ≤ g2 := by
            simp only [List.length_drop, List.length_cons]
            simp only [List.length_cons] at h2
            omega
          rw [ih _ _ hd hd2]
        · rw [if_neg hpre, if_neg hpre]
          have ht1 : t.length ≤ g1 := by simp only [List.length_cons] at h1; omega
          have ht2 : t.length ≤ g2 := by simp only [List.length_cons] at h2; omega
          rw [ih _ _ ht1 ht2]

theorem replaceGo_no_occur {pat rep : Str} (_h0 : pat ≠ []) :
    ∀ (f : Nat) (s : Str), ¬ (pat <:+: s) → replaceGo pat rep f s = s := by
  intro f
  induction f with
  | zero => intro s _; rfl
  | succ g ih =>
    intro s hno
    cases s with
    | nil => rw [replaceGo_nil]
    | cons c t =>
      rw [replaceGo_succ_cons]
      have hpre : ¬ (pat.isPrefixOf (c :: t) = true) := by
        intro hcontra
        obtain ⟨r, hr⟩ := prefixOfBool_iff.mp hcontra
        exact hno ⟨[], r, by simpa using hr⟩
      rw [if_neg hpre, ih t (fun hinf => hno (infix_cons_of c hinf))]

theorem replaceL_no_occur {pat rep s : Str} (h0 : pat ≠ []) (h : ¬ (pat <:+: s)) :
    replaceL pat rep s = s :=
  replaceGo_no_occur h0 _ s h

theorem replaceL_head {pat rep rest : Str} (hp : pat ≠ []) (hno : ¬ (pat <:+: rest)) :
    replaceL pat rep (pat ++ rest) = rep ++ rest := by
  obtain ⟨p, ps, rfl⟩ : ∃ p ps, pat = p :: ps := by
    cases pat with
    | nil => exact absurd rfl hp
    | cons p ps => exact ⟨p, ps, rfl⟩
  unfold replaceL
  have hlen : ((p :: ps) ++ rest).length = (ps.length + rest.length) + 1 := by
    simp only [List.length_append, List.length_cons]
    omega
  rw [hlen]
  rw [List.cons_append]
  rw [replaceGo_succ_cons]
  have hpre : (p :: ps).isPrefixOf (p :: (ps ++ rest)) = true :=
    prefixOfBool_iff.mpr ⟨rest, by rw [List.cons_append]⟩
  rw [if_pos hpre]
  have hdrop : (p :: (ps ++ rest)).drop (p :: ps).length = rest := by
    rw [← List.cons_append]
    exact List.drop_left _ _
  rw [hdrop, replaceGo_no_occur hp _ _ hno]

/-!  Claim C6: registry-key normalisation. -/

/-- Modelled from the spec (§3: "strip a fixed set of known prefixes,
replace '.' with '_', lowercase"); this is the comparison definition for
claim C6, not code from the repository. -/
def specNormalize (pre x : Str) : Str :=
  lowerL (replaceL (".").data ("_").data
    (if pre.isPrefixOf x then x.drop pre.length else x))

/-- C6 counterexample: on the registry key `scalar/Telemetry.Test` the scalar
path of the code substitutes the prefix (rather than stripping it) and never
lowercases, so the code-normalised name differs from the spec's
strip/underscore/lowercase rule. -/
theorem c6_counterexample :
    scalarNormalizeKey (("scalar/Telemetry.Test").data) =
      ("scalar_parent_Telemetry_Test").data ∧
    specNormalize (("scalar/").data) (("scalar/Telemetry.Test").data) =
      ("telemetry_test").data ∧
    scalarNormalizeKey (("scalar/Telemetry.Test").data) ≠
      specNormalize (("scalar/").data) (("scalar/Telemetry.Test").data) := by
  refine ⟨by decide, by decide, ?_⟩
  intro h
  rw [show scalarNormalizeKey (("scalar/Telemetry.Test").data) =
      ("scalar_parent_Telemetry_Test").data from by decide] at h
  rw [show specNormalize (("scalar/").data) (("scalar/Telemetry.Test").data) =
      ("telemetry_test").data from by decide] at h
  exact absurd h (by decide)

/-- C6 (amended): on the histogram paths of both generators the rule is as
the spec states, with the prefix `histogram/` removed, dots replaced by
underscores, and the result lowercased; on the scalar path the prefix
`scalar/` is instead replaced by `scalar_parent_` and dots are replaced by
underscores, with no lowercasing. (Both characterised for keys whose
remainder does not itself contain the prefix, since the code uses
replace-all.) -/
theorem c6_normalization :
    (∀ rest : Str, ¬ (("scalar/").data <:+: rest) →
       scalarNormalizeKey (("scalar/").data ++ rest) =
         replaceL (".").data ("_").data (("scalar_parent_").data ++ rest)) ∧
    (∀ rest : Str, ¬ (("histogram/").data <:+: rest) →
       histNormalizeKey (("histogram/").data ++ rest) =
         lowerL (replaceL (".").data ("_").data rest)) := by
  constructor
  · intro rest hno
    unfold scalarNormalizeKey
    rw [replaceL_head (by decide) hno]
  · intro rest hno
    unfold histNormalizeKey
    rw [replaceL_head (by decide) hno]
    rfl

theorem c6_normalization_witness :
    (¬ (("scalar/").data <:+: ("Telemetry.Test").data)) ∧
    scalarNormalizeKey (("scalar/").data ++ ("Telemetry.Test").data) =
      replaceL (".").data ("_").data (("scalar_parent_").data ++ ("Telemetry.Test").data) ∧
    (¬ (("histogram/").data <:+: ("GC.MS").data)) ∧
    histNormalizeKey (("histogram/").data ++ ("GC.MS").data) =
      lowerL (replaceL (".").data ("_").data (("GC.MS").data)) :=
  ⟨by decide, c6_normalization.1 (("Telemetry.Test").data) (by decide),
   by decide, c6_normalization.2 (("GC.MS").data) (by decide)⟩

/-!  Claim C2: composition determinism. -/

/-- C2 counterexample: the composers iterate the probe set directly, so two
probe collections containing the same elements in different iteration orders
produce different output strings; the fragment order follows the iteration
order rather than being pinned. -/
theorem c2_counterexample :
    ([("a").data, ("b").data] : List Str).Perm [("b").data, ("a").data] ∧
    (get_scalar_probes_sql_strings ⟨[("a").data, ("b").data], [], []⟩
        (("scalar").data)).probes_string ≠
      (get_scalar_probes_sql_strings ⟨[("b").data, ("a").data], [], []⟩
        (("scalar").data)).probes_string := by
  refine ⟨by decide, fun h => ?_⟩
  have h2 := congrArg (fun l : Str => (l.drop 255).take 10) h
  revert h2
  decide

/-- C2 (amended): the composers are pure functions of the probe iteration
sequence, so repeated calls on the same sequence give byte-identical output;
probe sequences that are permutations of each other produce the same
multiset of per-probe SQL fragments, but concatenated in iteration order
(the code never sorts), so equal sets iterated differently yield different
strings. The fragment multiset is preserved for the scalar/boolean composer
of the scalar generator and for the keyed-histogram composer of the
histogram generator. -/
theorem c2_fragment_multiset :
    (∀ s1 s2 b1 b2 : List Str, s1.Perm s2 → b1.Perm b2 →
       (scalarProbeStructs s1 b1).Perm (scalarProbeStructs s2 b2)) ∧
    (∀ p1 p2 : List Str, p1.Perm p2 → (p1.map hkfragOf).Perm (p2.map hkfragOf)) := by
  constructor
  · intro s1 s2 b1 b2 hs hb
    unfold scalarProbeStructs
    exact (hs.flatMap_right _).append (hb.flatMap_right _)
  · intro p1 p2 hp
    exact hp.map _

theorem c2_fragment_multiset_witness :
    (scalarProbeStructs [("a").data, ("b").data] []).Perm
      (scalarProbeStructs [("b").data, ("a").data] []) ∧
    ((["k1", "k2"].map String.data).map hkfragOf).Perm
      ((["k2", "k1"].map String.data).map hkfragOf) :=
  ⟨c2_fragment_multiset.1 _ _ _ _ (by decide) (by decide),
   c2_fragment_multiset.2 _ _ (by decide)⟩

/-!  Claim C4: behaviour when the expected payload group is absent. -/

/-- C4: when the schema has no `payload` field (or no sub-field named for
the requested histogram type), the histogram generator's classifier executes
a bare `return`, i.e. returns Python `None` rather than an empty set, and
`main` then crashes with a `TypeError` when the composer iterates `None` —
no output is produced, contradicting the claim. -/
theorem c4_absent_group_crash :
    get_histogram_probes_histfile
      [SchemaField.mk ("client_id").data (some ("STRING").data) none] []
      (("histograms").data) = .ok none ∧
    (∀ order : Finset Str → List Str,
      histMain order [SchemaField.mk ("client_id").data (some ("STRING").data) none] []
        (("histograms").data) =
        .error "TypeError: argument of type NoneType is not iterable") := by
  constructor
  · decide
  · intro order
    unfold histMain
    rw [if_pos (Or.inl rfl)]
    rw [show get_histogram_probes_histfile
        [SchemaField.mk ("client_id").data (some ("STRING").data) none] []
        (("histograms").data) = .ok none from by decide]
    rw [except_bind_ok]
    simp only [Option.map_none']
    rw [show get_histogram_probes_sql_strings_histfile none (("histograms").data) =
        .error "TypeError: argument of type NoneType is not iterable" from by
      unfold get_histogram_probes_sql_strings_histfile
      rw [if_neg (by decide)]
      rfl]
    rw [except_bind_error]

/-!  Python-dict lemmas and the last-write-wins characterisation of the
reverse name mapping (`main_summary_original_probes`). -/

theorem dictGet_nil (k : Str) : dictGet [] k = none := rfl

theorem dictGet_cons (a b : Str) (l : List (Str × Str)) (k : Str) :
    dictGet ((a, b) :: l) k = if a = k then some b else dictGet l k := by
  unfold dictGet
  by_cases h : a = k
  · rw [List.find?_cons_of_pos _ (by simpa using h), if_pos h]
    rfl
  · rw [List.find?_cons_of_neg _ (by simpa using h), if_neg h]

theorem dictGet_map_subst_ne {m : List (Str × Str)} {k v k' : Str} (h : k' ≠ k) :
    dictGet (m.map (fun kv => if kv.1 = k then (k, v) else kv)) k' = dictGet m k' := by
  induction m with
  | nil => rfl
  | cons kv0 m' ih =>
    obtain ⟨a0, b0⟩ := kv0
    rw [List.map_cons]
    by_cases h0 : (a0, b0).1 = k
    · rw [if_pos h0, dictGet_cons, dictGet_cons]
      simp only at h0
      rw [if_neg (fun hc : k = k' => h hc.symm),
          if_neg (fun hc : a0 = k' => h (hc ▸ h0))]
      exact ih
    · rw [if_neg h0, dictGet_cons, dictGet_cons]
      by_cases hp : a0 = k'
      · rw [if_pos hp, if_pos hp]
      · rw [if_neg hp, if_neg hp]
        exact ih

theorem dictGet_map_subst_eq {m : List (Str × Str)} {k v : Str} :
    dictGet (m.map (fun kv => if kv.1 = k then (k, v) else kv)) k =
      if m.any (fun kv => kv.1 = k) then some v else none := by
  induction m with
  | nil => rfl
  | cons kv0 m' ih =>
    obtain ⟨a0, b0⟩ := kv0
    rw [List.map_cons, List.any_cons]
    by_cases h0 : (a0, b0).1 = k
    · rw [if_pos h0, dictGet_cons, if_pos rfl]
      simp only at h0
      simp [h0]
    · rw [if_neg h0, dictGet_cons]
      simp only at h0
      rw [if_neg h0,
          show decide (a0 = k) = false from decide_eq_false h0, Bool.false_or]
      exact ih

theorem dictGet_append_single {m : List (Str × Str)} {k v k' : Str} :
    dictGet (m ++ [(k, v)]) k' =
      match dictGet m k' with
      | some w => some w
      | none => if k' = k then some v else none := by
  induction m with
  | nil =>
    rw [List.nil_append, dictGet_cons, dictGet_nil]
    by_cases hk : k = k'
    · rw [if_pos hk]
      show _ = if k' = k then some v else none
      rw [if_pos hk.symm]
    · rw [if_neg hk]
      show _ = if k' = k then some v else none
      rw [if_neg (fun hc => hk hc.symm)]
  | cons kv0 m' ih =>
    obtain ⟨a0, b0⟩ := kv0
    rw [List.cons_append, dictGet_cons, dictGet_cons]
    by_cases hp : a0 = k'
    · rw [if_pos hp, if_pos hp]
    · rw [if_neg hp, if_neg hp]
      exact ih

theorem dictGet_dictSet (m : List (Str × Str)) (k v k' : Str) :
    dictGet (dictSet m k v) k' = if k' = k then some v else dictGet m k' := by
  unfold dictSet
  by_cases hany : (m.any (fun kv => kv.1 = k)) = true
  · rw [if_pos hany]
    by_cases hk : k' = k
    · subst hk
      rw [dictGet_map_subst_eq, if_pos hany, if_pos rfl]
    · rw [dictGet_map_subst_ne hk, if_neg hk]
  · rw [if_neg hany, dictGet_append_single]
    by_cases hk : k' = k
    · subst hk
      have hnone : dictGet m k' = none := by
        unfold dictGet
        rw [List.find?_eq_none.mpr]
        · rfl
        · intro x hx
          simp only [List.any_eq_true] at hany
          simpa using fun hc => hany ⟨x, hx, by simpa using hc⟩
      rw [hnone, if_pos rfl]
    · cases hmk : dictGet m k' with
      | some w => simp [hk]
      | none => rfl

/-- The pure per-field filter of the scalar generator's histogram loop:
name starts with `histogram` and the shape classifier succeeds with the
requested subtype. -/
def histMatchOk (htype : Str) (f : SchemaField) : Bool :=
  (("histogram").data).isPrefixOf f.name &&
    decide (get_histogram_type (histKeyvals f) = .ok (some htype))

/-- The original name recorded for normalised name `k` after the loop:
the name of the last field in schema order that matches the filter and
strips to `k` (later fields overwrite earlier ones in the dict). -/
def lastMatch (htype : Str) : List SchemaField → Str → Option Str
  | [], _ => none
  | f :: rest, k =>
    match lastMatch htype rest k with
    | some v => some v
    | none =>
      if histMatchOk htype f = true ∧ stripHistPre f.name = k then some f.name else none

theorem lastMatch_cons (htype : Str) (f : SchemaField) (rest : List SchemaField) (k : Str) :
    lastMatch htype (f :: rest) k =
      match lastMatch htype rest k with
      | some v => some v
      | none =>
        if histMatchOk htype f = true ∧ stripHistPre f.name = k then some f.name
        else none := rfl

theorem histFold_dictGet (htype : Str) :
    ∀ (l : List SchemaField) (acc res : HistAcc),
      l.foldlM (histStep htype) acc = .ok res →
      ∀ k, dictGet res.orig k =
        match lastMatch htype l k with
        | some v => some v
        | none => dictGet acc.orig k := by
  intro l
  induction l with
  | nil =>
    intro acc res h k
    have : acc = res := by
      simpa [List.foldlM, except_pure] using h
    subst this
    rfl
  | cons f rest ih =>
    intro acc res h k
    rw [List.foldlM_cons] at h
    cases hstep : histStep htype acc f with
    | error e => rw [hstep, except_bind_error] at h; cases h
    | ok acc1 =>
      rw [hstep, except_bind_ok] at h
      have ih2 := ih acc1 res h k
      unfold histStep at hstep
      by_cases hpre : (("histogram").data).isPrefixOf f.name = true
      · rw [if_pos hpre] at hstep
        cases hht : get_histogram_type (histKeyvals f) with
        | error e => rw [hht, except_bind_error] at hstep; cases hstep
        | ok ht =>
          rw [hht, except_bind_ok] at hstep
          by_cases hok : ht = some htype
          · rw [if_pos hok, except_pure] at hstep
            cases hstep
            have hmatch : histMatchOk htype f = true := by
              simp [histMatchOk, hpre, hht, hok]
            rw [ih2, lastMatch_cons]
            cases lm : lastMatch htype rest k with
            | some v => rfl
            | none =>
              show dictGet (dictSet acc.orig (stripHistPre f.name) f.name) k = _
              rw [dictGet_dictSet]
              by_cases hk : k = stripHistPre f.name
              · rw [if_pos hk, if_pos ⟨hmatch, hk.symm⟩]
              · rw [if_neg hk, if_neg (fun hc => hk hc.2.symm)]
          · rw [if_neg hok, except_pure] at hstep
            cases hstep
            have hmatch : histMatchOk htype f = false := by
              simp only [histMatchOk, Bool.and_eq_false_iff]
              right
              simp only [decide_eq_false_iff_not]
              rw [hht]
              exact fun hc => hok (by simpa using hc)
            rw [ih2, lastMatch_cons]
            cases lm : lastMatch htype rest k with
            | some v => rfl
            | none =>
              rw [if_neg (fun hc => by rw [hmatch] at hc; exact absurd hc.1 (by simp))]
      · rw [if_neg hpre, except_pure] at hstep
        cases hstep
        have hmatch : histMatchOk htype f = false := by
          simp only [histMatchOk, Bool.and_eq_false_iff]
          left
          exact Bool.not_eq_true _ ▸ (by simpa using hpre)
        rw [ih2, lastMatch_cons]
        cases lm : lastMatch htype rest k with
        | some v => rfl
        | none =>
          rw [if_neg (fun hc => by rw [hmatch] at hc; exact absurd hc.1 (by simp))]

theorem lastMatch_mem (htype : Str) : ∀ (l : List SchemaField) (k v : Str),
    lastMatch htype l k = some v →
    ∃ f ∈ l, f.name = v ∧ histMatchOk htype f = true ∧ stripHistPre f.name = k := by
  intro l
  induction l with
  | nil => intro k v h; cases h
  | cons f rest ih =>
    intro k v h
    rw [lastMatch_cons] at h
    cases lm : lastMatch htype rest k with
    | some w =>
      rw [lm] at h
      cases h
      obtain ⟨g, hg, hprops⟩ := ih k v lm
      exact ⟨g, List.mem_cons_of_mem f hg, hprops⟩
    | none =>
      rw [lm] at h
      by_cases hc : histMatchOk htype f = true ∧ stripHistPre f.name = k
      · rw [if_pos hc] at h
        cases h
        exact ⟨f, List.mem_cons_self f rest, rfl, hc.1, hc.2⟩
      · rw [if_neg hc] at h
        cases h

/-!  Claim C7: the reverse name mapping. -/

/-- Two histogram fields differing only in their stripped prefix, both of
plain-histogram shape, together with a registry entry for the shared
normalised name. -/
def c7schema : List SchemaField :=
  [SchemaField.mk ("histogram_content_foo").data (some ("RECORD").data)
     (some [SchemaField.mk ("key_value").data (some ("RECORD").data)
       (some [SchemaField.mk ("key").data (some ("INTEGER").data) none,
              SchemaField.mk ("value").data (some ("INTEGER").data) none])]),
   SchemaField.mk ("histogram_parent_foo").data (some ("RECORD").data)
     (some [SchemaField.mk ("key_value").data (some ("RECORD").data)
       (some [SchemaField.mk ("key").data (some ("INTEGER").data) none,
              SchemaField.mk ("value").data (some ("INTEGER").data) none])])]

/-- C7 counterexample: `histogram_content_foo` and `histogram_parent_foo`
both survive classification and normalise to `foo`, but the reverse mapping
keeps only the later write, so the classifier result contains only
`histogram_parent_foo` and the content field's original name is silently
lost — the mapping is not lossless as claimed. -/
theorem c7_counterexample :
    stripHistPre (("histogram_content_foo").data) = ("foo").data ∧
    stripHistPre (("histogram_parent_foo").data) = ("foo").data ∧
    get_histogram_probes_scalarfile c7schema [("histogram/foo").data]
      (("histogram").data) = .ok {("histogram_parent_foo").data} ∧
    ("histogram_content_foo").data ∉ ({("histogram_parent_foo").data} : Finset Str) := by
  refine ⟨by decide, by decide, ?_, by decide⟩
  decide

/-- C7 (amended): the reverse mapping `main_summary_original_probes` is a
single-valued function realised by last-write-wins: after the classification
loop, the original name recorded for a normalised name `k` is exactly the
name of the last schema field (in schema order) that passes the histogram
filter and strips to `k`; any recorded name does come from such a matching
field, but when two matching fields strip to the same name the earlier one
is overwritten and is no longer recoverable. -/
theorem c7_reverse_mapping (htype : Str) (schema : List SchemaField) (res : HistAcc)
    (h : schema.foldlM (histStep htype) ⟨[], []⟩ = .ok res) :
    (∀ k, dictGet res.orig k = lastMatch htype schema k) ∧
    (∀ k v, dictGet res.orig k = some v →
       ∃ f ∈ schema, f.name = v ∧ histMatchOk htype f = true ∧
         stripHistPre f.name = k) := by
  have h1 := histFold_dictGet htype schema ⟨[], []⟩ res h
  constructor
  · intro k
    rw [h1 k]
    cases lastMatch htype schema k <;> rfl
  · intro k v hv
    rw [h1 k] at hv
    cases lm : lastMatch htype schema k with
    | some w =>
      rw [lm] at hv
      cases hv
      exact lastMatch_mem htype schema k v lm
    | none =>
      rw [lm] at hv
      cases hv

theorem c7_reverse_mapping_witness :
    dictGet
      (⟨[("foo").data, ("foo").data],
        [(("foo").data, ("histogram_parent_foo").data)]⟩ : HistAcc).orig (("foo").data) =
      lastMatch (("histogram").data) c7schema (("foo").data) :=
  (c7_reverse_mapping (("histogram").data) c7schema _ rfl).1 (("foo").data)

/-!  Claim C1: classification soundness. -/

/-- Structural candidacy for the scalars bucket of `get_scalar_probes`: the
name starts with `scalar_parent` and the declared type is `INTEGER`. -/
def isScalarCandidate (f : SchemaField) : Bool :=
  (("scalar_parent").data).isPrefixOf f.name &&
    decide (f.typeKey = .ok (("INTEGER").data))

/-- Structural candidacy for the booleans bucket of `get_scalar_probes`. -/
def isBooleanCandidate (f : SchemaField) : Bool :=
  (("scalar_parent").data).isPrefixOf f.name &&
    decide (f.typeKey = .ok (("BOOLEAN").data))

/-- The nested dereference `field["fields"][0]["fields"][1]["type"]` of the
RECORD branch of `get_scalar_probes`. -/
def recordNestedType (f : SchemaField) : Except String Str := do
  let fs ← f.fieldsKey
  let f0 ← listIdx fs 0
  let f0s ← f0.fieldsKey
  let f1 ← listIdx f0s 1
  f1.typeKey

/-- Structural candidacy for the keyed (record) bucket of
`get_scalar_probes`: `scalar_parent` name, RECORD type, and a nested
key/value second type that exists and is not BOOLEAN. -/
def isRecordCandidate (f : SchemaField) : Bool :=
  (("scalar_parent").data).isPrefixOf f.name &&
    decide (f.typeKey = .ok (("RECORD").data)) &&
    (match recordNestedType f with
     | .ok t1 => !decide (t1 = ("BOOLEAN").data)
     | .error _ => false)

theorem scalarStep_sound (acc acc' : ScalarAcc) (f : SchemaField)
    (h : scalarStep acc f = .ok acc') :
    (∀ n, n ∈ acc'.scalars → n ∈ acc.scalars ∨ (n = f.name ∧ isScalarCandidate f = true)) ∧
    (∀ n, n ∈ acc'.booleans → n ∈ acc.booleans ∨ (n = f.name ∧ isBooleanCandidate f = true)) ∧
    (∀ n, n ∈ acc'.record → n ∈ acc.record ∨ (n = f.name ∧ isRecordCandidate f = true)) := by
  unfold scalarStep at h
  by_cases hp : (("scalar_parent").data).isPrefixOf f.name = true
  · rw [if_pos hp] at h
    cases ht : f.typeKey with
    | error e => rw [ht, except_bind_error] at h; cases h
    | ok t =>
      rw [ht, except_bind_ok] at h
      by_cases h1 : t = ("INTEGER").data
      · rw [if_pos h1, except_pure] at h
        cases h
        refine ⟨fun n hn => ?_, fun n hn => .inl hn, fun n hn => .inl hn⟩
        rcases Finset.mem_insert.mp hn with h2 | h2
        · exact .inr ⟨h2, by simp [isScalarCandidate, hp, ht, h1]⟩
        · exact .inl h2
      · rw [if_neg h1] at h
        by_cases h2 : t = ("BOOLEAN").data
        · rw [if_pos h2, except_pure] at h
          cases h
          refine ⟨fun n hn => .inl hn, fun n hn => ?_, fun n hn => .inl hn⟩
          rcases Finset.mem_insert.mp hn with h3 | h3
          · exact .inr ⟨h3, by simp [isBooleanCandidate, hp, ht, h2]⟩
          · exact .inl h3
        · rw [if_neg h2] at h
          by_cases h3 : t = ("RECORD").data
          · rw [if_pos h3] at h
            cases h4 : f.fieldsKey with
            | error e => rw [h4, except_bind_error] at h; cases h
            | ok fs =>
              rw [h4, except_bind_ok] at h
              cases h5 : listIdx fs 0 with
              | error e => rw [h5, except_bind_error] at h; cases h
              | ok f0 =>
                rw [h5, except_bind_ok] at h
                cases h6 : f0.fieldsKey with
                | error e => rw [h6, except_bind_error] at h; cases h
                | ok f0s =>
                  rw [h6, except_bind_ok] at h
                  cases h7 : listIdx f0s 1 with
                  | error e => rw [h7, except_bind_error] at h; cases h
                  | ok f1 =>
                    rw [h7, except_bind_ok] at h
                    cases h8 : f1.typeKey with
                    | error e => rw [h8, except_bind_error] at h; cases h
                    | ok t1 =>
                      rw [h8, except_bind_ok] at h
                      by_cases h9 : t1 = ("BOOLEAN").data
                      · rw [if_pos h9, except_pure] at h
                        cases h
                        exact ⟨fun n hn => .inl hn, fun n hn => .inl hn, fun n hn => .inl hn⟩
                      · rw [if_neg h9, except_pure] at h
                        cases h
                        refine ⟨fun n hn => .inl hn, fun n hn => .inl hn, fun n hn => ?_⟩
                        rcases Finset.mem_insert.mp hn with ha | ha
                        · refine .inr ⟨ha, ?_⟩
                          have hnest : recordNestedType f = .ok t1 := by
                            unfold recordNestedType
                            rw [h4, except_bind_ok, h5, except_bind_ok, h6,
                              except_bind_ok, h7, except_bind_ok, h8]
                          simp [isRecordCandidate, hp, ht, h3, hnest, h9]
                        · exact .inl ha
          · rw [if_neg h3, except_pure] at h
            cases h
            exact ⟨fun n hn => .inl hn, fun n hn => .inl hn, fun n hn => .inl hn⟩
  · rw [if_neg hp, except_pure] at h
    cases h
    exact ⟨fun n hn => .inl hn, fun n hn => .inl hn, fun n hn => .inl hn⟩

theorem scalarFold_sound :
    ∀ (l : List SchemaField) (acc res : ScalarAcc),
      l.foldlM scalarStep acc = .ok res →
      (∀ n, n ∈ res.scalars → n ∈ acc.scalars ∨
        ∃ f ∈ l, f.name = n ∧ isScalarCandidate f = true) ∧
      (∀ n, n ∈ res.booleans → n ∈ acc.booleans ∨
        ∃ f ∈ l, f.name = n ∧ isBooleanCandidate f = true) ∧
      (∀ n, n ∈ res.record → n ∈ acc.record ∨
        ∃ f ∈ l, f.name = n ∧ isRecordCandidate f = true) := by
  intro l
  induction l with
  | nil =>
    intro acc res h
    have : acc = res := by simpa [List.foldlM, except_pure] using h
    subst this
    exact ⟨fun n hn => .inl hn, fun n hn => .inl hn, fun n hn => .inl hn⟩
  | cons f rest ih =>
    intro acc res h
    rw [List.foldlM_cons] at h
    cases hstep : scalarStep acc f with
    | error e => rw [hstep, except_bind_error] at h; cases h
    | ok acc1 =>
      rw [hstep, except_bind_ok] at h
      obtain ⟨ihs, ihb, ihr⟩ := ih acc1 res h
      obtain ⟨ss, sb, sr⟩ := scalarStep_sound acc acc1 f hstep
      refine ⟨fun n hn => ?_, fun n hn => ?_, fun n hn => ?_⟩
      · rcases ihs n hn with h1 | ⟨g, hg, hgn⟩
        · rcases ss n h1 with h2 | ⟨h2, h3⟩
          · exact .inl h2
          · exact .inr ⟨f, List.mem_cons_self f rest, h2.symm, h3⟩
        · exact .inr ⟨g, List.mem_cons_of_mem f hg, hgn⟩
      · rcases ihb n hn with h1 | ⟨g, hg, hgn⟩
        · rcases sb n h1 with h2 | ⟨h2, h3⟩
          · exact .inl h2
          · exact .inr ⟨f, List.mem_cons_self f rest, h2.symm, h3⟩
        · exact .inr ⟨g, List.mem_cons_of_mem f hg, hgn⟩
      · rcases ihr n hn with h1 | ⟨g, hg, hgn⟩
        · rcases sr n h1 with h2 | ⟨h2, h3⟩
          · exact .inl h2
          · exact .inr ⟨f, List.mem_cons_self f rest, h2.symm, h3⟩
        · exact .inr ⟨g, List.mem_cons_of_mem f hg, hgn⟩

/-- C1: classification soundness for all three classifiers. A name is in a
returned bucket only if some schema field of the matching structural shape
carries it and the corresponding registry condition holds: scalar buckets
are intersected with the normalised scalar registry keys; the scalar
generator's histogram classifier only returns original names of fields
passing the histogram filter whose stripped name is a normalised registry
probe; the histogram generator's classifier only returns names that are both
normalised registry probes and sub-field names of the payload group it
located. -/
theorem c1_classification_soundness :
    (∀ schema keys ps, get_scalar_probes schema keys = .ok ps →
      (∀ n ∈ ps.scalars, n ∈ scalarRegistrySet keys ∧
        ∃ f ∈ schema, f.name = n ∧ isScalarCandidate f = true) ∧
      (∀ n ∈ ps.booleans, n ∈ scalarRegistrySet keys ∧
        ∃ f ∈ schema, f.name = n ∧ isBooleanCandidate f = true) ∧
      (∀ n ∈ ps.keyed, n ∈ scalarRegistrySet keys ∧
        ∃ f ∈ schema, f.name = n ∧ isRecordCandidate f = true)) ∧
    (∀ schema keys htype s, get_histogram_probes_scalarfile schema keys htype = .ok s →
      ∀ n ∈ s, ∃ f ∈ schema, f.name = n ∧ histMatchOk htype f = true ∧
        stripHistPre f.name ∈ histRegistrySet keys) ∧
    (∀ schema keys htype s,
      get_histogram_probes_histfile schema keys htype = .ok (some s) →
      ∀ n ∈ s, n ∈ histRegistrySet keys ∧
        ∃ hfd, findHistField htype schema = .ok (some hfd) ∧
          n ∈ (hfd.fields?.getD []).map SchemaField.name) := by
  refine ⟨?_, ?_, ?_⟩
  · intro schema keys ps h
    unfold get_scalar_probes at h
    cases hacc : schema.foldlM scalarStep ⟨∅, ∅, ∅, ∅⟩ with
    | error e => rw [hacc, except_bind_error] at h; cases h
    | ok acc =>
      rw [hacc, except_bind_ok] at h
      cases h
      obtain ⟨fs, fb, fr⟩ := scalarFold_sound schema ⟨∅, ∅, ∅, ∅⟩ acc hacc
      refine ⟨fun n hn => ?_, fun n hn => ?_, fun n hn => ?_⟩
      · obtain ⟨h1, h2⟩ := Finset.mem_inter.mp hn
        refine ⟨h1, ?_⟩
        rcases fs n h2 with h3 | h3
        · exact absurd h3 (Finset.not_mem_empty n)
        · exact h3
      · obtain ⟨h1, h2⟩ := Finset.mem_inter.mp hn
        refine ⟨h1, ?_⟩
        rcases fb n h2 with h3 | h3
        · exact absurd h3 (Finset.not_mem_empty n)
        · exact h3
      · obtain ⟨h1, h2⟩ := Finset.mem_inter.mp hn
        refine ⟨h1, ?_⟩
        rcases fr n h2 with h3 | h3
        · exact absurd h3 (Finset.not_mem_empty n)
        · exact h3
  · intro schema keys htype s h
    unfold get_histogram_probes_scalarfile at h
    cases hacc : schema.foldlM (histStep htype) ⟨[], []⟩ with
    | error e => rw [hacc, except_bind_error] at h; cases h
    | ok acc =>
      rw [hacc, except_bind_ok] at h
      cases h
      intro n hn
      obtain ⟨k, hk, hdg⟩ := List.mem_filterMap.mp (List.mem_toFinset.mp hn)
      obtain ⟨hkn, hkp⟩ := List.mem_filter.mp hk
      have hlm := histFold_dictGet htype schema ⟨[], []⟩ acc hacc k
      rw [hdg] at hlm
      cases lm : lastMatch htype schema k with
      | none =>
        rw [lm] at hlm
        simp [dictGet] at hlm
      | some v =>
        rw [lm] at hlm
        cases hlm
        obtain ⟨f, hf, hfn, hmo, hstrip⟩ := lastMatch_mem htype schema k n lm
        exact ⟨f, hf, hfn, hmo, by rw [hstrip]; exact of_decide_eq_true hkp⟩
  · intro schema keys htype s h
    unfold get_histogram_probes_histfile at h
    cases hhf : findHistField htype schema with
    | error e => rw [hhf, except_bind_error] at h; cases h
    | ok ohf =>
      rw [hhf, except_bind_ok] at h
      cases ohf with
      | none => cases h
      | some hfield =>
        cases h
        intro n hn
        obtain ⟨h1, h2⟩ := Finset.mem_inter.mp hn
        exact ⟨h1, hfield, rfl, List.mem_toFinset.mp h2⟩

theorem c1_classification_soundness_witness :
    ("scalar_parent_telemetry_test").data ∈
      scalarRegistrySet [("scalar/telemetry.test").data] ∧
    ∃ f ∈ [SchemaField.mk ("scalar_parent_telemetry_test").data
        (some (("INTEGER").data)) none],
      f.name = ("scalar_parent_telemetry_test").data ∧ isScalarCandidate f = true :=
  ((c1_classification_soundness.1
      [SchemaField.mk ("scalar_parent_telemetry_test").data
        (some (("INTEGER").data)) none]
      [("scalar/telemetry.test").data]
      ⟨{("scalar_parent_telemetry_test").data}, ∅, ∅⟩ (by decide)).1)
    (("scalar_parent_telemetry_test").data) (by decide)

/-!  Claim C9: the concrete scalar scenario. -/

/-- Any string that is an infix of the (cleared) aggregates slot is an infix
of the scalar generator's composed output. -/
theorem infix_scalar_slot_aggregates {m : Str} (aq A qt ap sc : Str)
    (h : m <:+: clw (sgen1c2 ++ (A ++ sgen2c0))) :
    m <:+: scalar_generate_sql aq A qt ap sc := by
  rw [scalar_generate_sql_decomp]
  apply infix_append_left; apply infix_cons_of
  apply infix_append_left; apply infix_cons_of
  apply infix_append_left; apply infix_cons_of
  apply infix_append_left; apply infix_cons_of
  apply infix_append_left; apply infix_cons_of
  apply infix_append_left; apply infix_cons_of
  apply infix_append_left; apply infix_cons_of
  exact infix_append_right _ h

/-- Any string that is an infix of the cleared `w1` window-definition chunk
is an infix of the scalar generator's composed output. -/
theorem infix_scalar_w1_window {m : Str} (aq A qt ap sc : Str)
    (h : m <:+: clw sgen3c1) :
    m <:+: scalar_generate_sql aq A qt ap sc := by
  rw [scalar_generate_sql_decomp]
  apply infix_append_left; apply infix_cons_of
  apply infix_append_left; apply infix_cons_of
  apply infix_append_left; apply infix_cons_of
  apply infix_append_left; apply infix_cons_of
  apply infix_append_left; apply infix_cons_of
  apply infix_append_left; apply infix_cons_of
  apply infix_append_left; apply infix_cons_of
  apply infix_append_left; apply infix_cons_of
  apply infix_append_left; apply infix_cons_of
  exact infix_append_right _ h

def c9probe : Str := ("scalar_parent_telemetry_test").data

def c9schema : List SchemaField :=
  [SchemaField.mk c9probe (some (("INTEGER").data)) none]

def c9keys : List Str := [("scalar/telemetry.test").data]

def c9fragMax : Str :=
  ("('scalar_parent_telemetry_test', 'max', max(CAST(scalar_parent_telemetry_test AS INT64)) OVER w1, 0, 1000, 50)").data

def c9fragAvg : Str :=
  ("('scalar_parent_telemetry_test', 'avg', avg(CAST(scalar_parent_telemetry_test AS INT64)) OVER w1, 0, 1000, 50)").data

def c9fragMin : Str :=
  ("('scalar_parent_telemetry_test', 'min', min(CAST(scalar_parent_telemetry_test AS INT64)) OVER w1, 0, 1000, 50)").data

def c9fragSum : Str :=
  ("('scalar_parent_telemetry_test', 'sum', sum(CAST(scalar_parent_telemetry_test AS INT64)) OVER w1, 0, 1000, 50)").data

/-- The `w1` window definition of the scalar master template: partition by
client, date, OS, app version, build id and channel. -/
def c9w1window : Str :=
  ("w1 AS (\n                        PARTITION BY\n                            client_id,\n                            submission_date_s3,\n                            os,\n                            app_version,\n                            app_build_id,\n                            channel").data

/-- The composed output of the scalar generator's `main` for the scenario. -/
def c9out : Str :=
  scalar_generate_sql []
    (get_scalar_probes_sql_strings ⟨[c9probe], [], []⟩ (("scalar").data)).probes_string
    (("deduplicated").data) [] ssselect0

theorem c9aux_classify : get_scalar_probes c9schema c9keys = .ok ⟨{c9probe}, ∅, ∅⟩ := by
  decide

theorem c9aux_structs :
    scalarProbeStructs [c9probe] [] = [c9fragMax, c9fragAvg, c9fragMin, c9fragSum] := by
  decide

theorem c9aux_over :
    ("OVER w1").data <:+: c9fragMax ∧ ("OVER w1").data <:+: c9fragAvg ∧
    ("OVER w1").data <:+: c9fragMin ∧ ("OVER w1").data <:+: c9fragSum := by
  exact ⟨by decide, by decide, by decide, by decide⟩

theorem c9aux_main : scalarMain (("scalar").data) ⟨[c9probe], [], []⟩ [] = .ok c9out := rfl

theorem c9aux_max : c9fragMax <:+: c9out :=
  infix_scalar_slot_aggregates _ _ _ _ _ (by decide)

theorem c9aux_avg : c9fragAvg <:+: c9out :=
  infix_scalar_slot_aggregates _ _ _ _ _ (by decide)

theorem c9aux_min : c9fragMin <:+: c9out :=
  infix_scalar_slot_aggregates _ _ _ _ _ (by decide)

theorem c9aux_sum : c9fragSum <:+: c9out :=
  infix_scalar_slot_aggregates _ _ _ _ _
    ⟨(clw (sgen1c2 ++ ((get_scalar_probes_sql_strings ⟨[c9probe], [], []⟩
        (("scalar").data)).probes_string ++ sgen2c0))).take 602,
     (clw (sgen1c2 ++ ((get_scalar_probes_sql_strings ⟨[c9probe], [], []⟩
        (("scalar").data)).probes_string ++ sgen2c0))).drop 712,
     by decide⟩

theorem c9aux_w1 : c9w1window <:+: c9out :=
  infix_scalar_w1_window _ _ _ _ _ (by decide)

/-- C9: on a schema containing `scalar_parent_telemetry_test` of type
INTEGER and a registry containing `scalar/telemetry.test`, the classifier
places the field in the scalars bucket (and nothing elsewhere), the
composer emits exactly four aggregate fragments for it — max, avg, min,
sum — each windowed `OVER w1`, all four appear in the driver's composed
output, and `w1` is defined there as the partition by (client, date, OS,
app version, build id, channel). -/
theorem c9_scalar_scenario :
    get_scalar_probes c9schema c9keys = .ok ⟨{c9probe}, ∅, ∅⟩ ∧
    scalarProbeStructs [c9probe] [] = [c9fragMax, c9fragAvg, c9fragMin, c9fragSum] ∧
    (("OVER w1").data <:+: c9fragMax ∧ ("OVER w1").data <:+: c9fragAvg ∧
     ("OVER w1").data <:+: c9fragMin ∧ ("OVER w1").data <:+: c9fragSum) ∧
    scalarMain (("scalar").data) ⟨[c9probe], [], []⟩ [] = .ok c9out ∧
    (c9fragMax <:+: c9out ∧ c9fragAvg <:+: c9out ∧
     c9fragMin <:+: c9out ∧ c9fragSum <:+: c9out) ∧
    c9w1window <:+: c9out :=
  ⟨c9aux_classify, c9aux_structs, c9aux_over, c9aux_main,
   ⟨c9aux_max, c9aux_avg, c9aux_min, c9aux_sum⟩, c9aux_w1⟩

/-!  Claim C3: deduplication precedes windowed aggregation. -/

/-- Start of the deduplication clause in both master templates. -/
def dedupMarker : Str := ("deduplicated AS (").data

/-- Start of the windowed-aggregation clause in both master templates. -/
def windowedMarker : Str := ("windowed AS (").data

/-- Skipping a leading line that contains neither marker keeps both first
occurrences and their order. -/
theorem fi_lt_skip {a b A T : Str} (hna : '\n' ∉ a) (hnb : '\n' ∉ b)
    (haA : firstIdx a A = none) (hbA : firstIdx b A = none)
    (h : ∃ i j, firstIdx a T = some i ∧ firstIdx b T = some j ∧ i < j) :
    ∃ i j, firstIdx a (A ++ '\n' :: T) = some i ∧
      firstIdx b (A ++ '\n' :: T) = some j ∧ i < j := by
  obtain ⟨i, j, hi, hj, hij⟩ := h
  refine ⟨i + (A.length + 1), j + (A.length + 1), ?_, ?_, by omega⟩
  · rw [fi_skip hna haA, hi]
    rfl
  · rw [fi_skip hnb hbA, hj]
    rfl

theorem c3_scalar_slots (aq A qt ap sc : Str) :
    ∃ i j, firstIdx dedupMarker (scalar_generate_sql aq A qt ap sc) = some i ∧
      firstIdx windowedMarker (scalar_generate_sql aq A qt ap sc) = some j ∧ i < j := by
  rw [scalar_generate_sql_decomp]
  apply fi_lt_skip (by decide) (by decide) (by decide) (by decide)
  apply fi_lt_skip (by decide) (by decide) (by decide) (by decide)
  apply fi_lt_skip (by decide) (by decide) (by decide) (by decide)
  apply fi_lt_skip (by decide) (by decide) (by decide) (by decide)
  apply fi_lt_of_decomp (by decide) (infix_fi_isSome (by decide)) (by decide)
  exact infix_fi_isSome (infix_append_left _ (infix_cons_of _
    (infix_append_right _ (by decide))))

theorem c3_hist_slots (aq wc sc : Str) :
    ∃ i j, firstIdx dedupMarker (hist_generate_sql aq wc sc) = some i ∧
      firstIdx windowedMarker (hist_generate_sql aq wc sc) = some j ∧ i < j := by
  rw [hist_generate_sql_decomp]
  apply fi_lt_skip (by decide) (by decide) (by decide) (by decide)
  apply fi_lt_skip (by decide) (by decide) (by decide) (by decide)
  apply fi_lt_skip (by decide) (by decide) (by decide) (by decide)
  apply fi_lt_skip (by decide) (by decide) (by decide) (by decide)
  apply fi_lt_skip (by decide) (by decide) (by decide) (by decide)
  apply fi_lt_skip (by decide) (by decide) (by decide) (by decide)
  apply fi_lt_skip (by decide) (by decide) (by decide) (by decide)
  apply fi_lt_skip (by decide) (by decide) (by decide) (by decide)
  apply fi_lt_of_decomp (by decide) (infix_fi_isSome (by decide)) (by decide)
  exact infix_fi_isSome (infix_append_left _ (infix_cons_of _
    (infix_append_left _ (infix_cons_of _
      (infix_append_right _ (by decide))))))

/-- C3: in every composed query of either generator — for all slot contents,
hence for every probe set and selector value, including every output the
drivers return — the deduplication clause (`deduplicated AS (`) first occurs
strictly before the first occurrence of the windowed-aggregation clause
(`windowed AS (`). -/
theorem c3_dedup_before_windowed :
    (∀ aq A qt ap sc, ∃ i j,
      firstIdx dedupMarker (scalar_generate_sql aq A qt ap sc) = some i ∧
      firstIdx windowedMarker (scalar_generate_sql aq A qt ap sc) = some j ∧ i < j) ∧
    (∀ aq wc sc, ∃ i j,
      firstIdx dedupMarker (hist_generate_sql aq wc sc) = some i ∧
      firstIdx windowedMarker (hist_generate_sql aq wc sc) = some j ∧ i < j) ∧
    (∀ aggType sp hp out, scalarMain aggType sp hp = .ok out →
      ∃ i j, firstIdx dedupMarker out = some i ∧
        firstIdx windowedMarker out = some j ∧ i < j) ∧
    (∀ order schema keys aggType out, histMain order schema keys aggType = .ok out →
      ∃ i j, firstIdx dedupMarker out = some i ∧
        firstIdx windowedMarker out = some j ∧ i < j) := by
  refine ⟨c3_scalar_slots, c3_hist_slots, ?_, ?_⟩
  · intro aggType sp hp out h
    unfold scalarMain at h
    split at h
    · exact Except.ok.inj h ▸ c3_scalar_slots _ _ _ _ _
    · split at h
      · exact Except.ok.inj h ▸ c3_scalar_slots _ _ _ _ _
      · cases h
  · intro order schema keys aggType out h
    unfold histMain at h
    split at h
    case isTrue h1 =>
      cases hc : get_histogram_probes_histfile schema keys aggType with
      | error e => rw [hc, except_bind_error] at h; cases h
      | ok pOpt =>
        rw [hc, except_bind_ok] at h
        cases hs : get_histogram_probes_sql_strings_histfile (pOpt.map order) aggType with
        | error e => rw [hs, except_bind_error] at h; cases h
        | ok slots =>
          rw [hs, except_bind_ok] at h
          exact Except.ok.inj h ▸ c3_hist_slots _ _ _
    case isFalse h1 => cases h

theorem c3_dedup_before_windowed_witness :
    ∃ i j, firstIdx dedupMarker c9out = some i ∧
      firstIdx windowedMarker c9out = some j ∧ i < j :=
  c3_dedup_before_windowed.2.2.1 (("scalar").data) ⟨[c9probe], [], []⟩ [] c9out rfl


/-!  Claim C10: hard-coded date in the histogram generator, parameter in the
scalar generator. -/

/-- The histogram generator's source-row date filter. -/
def histDateLit : Str := ("WHERE DATE(submission_timestamp) = '2019-07-17'").data

/-- The scalar generator's source-row date filter. -/
def scalarParamLit : Str := ("WHERE submission_date_s3 = @submission_date").data

/-- The slot-independent prefix of every composed histogram query: the
cleared fixed chunks before the first interpolation hole. -/
def histFixedHead : Str :=
  clw hgen0c0 ++ ('\n' :: (clw hgen0c1 ++ ('\n' :: (clw hgen0c2 ++ ('\n' :: (clw hgen0c3 ++ ('\n' :: (clw hgen0c4 ++ ('\n' :: (clw hgen0c5 ++ ('\n' :: (clw hgen0c6 ++ ('\n' :: (clw hgen0c7 ++ ('\n' :: (clw hgen0c8 ++ ('\n' :: (clw hgen0c9))))))))))))))))))

/-- The slot-dependent remainder of a composed histogram query. -/
def histSlotTail (aq wc sc : Str) : Str :=
  clw (hgen0c10 ++ (aq ++ hgen1c0)) ++ ('\n' :: (clw hgen1c1 ++ ('\n' :: (clw (hgen1c2 ++ (wc ++ hgen2c0)) ++ ('\n' :: (clw hgen2c1 ++ ('\n' :: (clw (hgen2c2 ++ (sc ++ hgen3c0)) ++ ('\n' :: (clw hgen3c1))))))))))

theorem infix_scalar_chunk3 {m : Str} (aq A qt ap sc : Str)
    (h : m <:+: clw sgen0c3) : m <:+: scalar_generate_sql aq A qt ap sc := by
  rw [scalar_generate_sql_decomp]
  apply infix_append_left; apply infix_cons_of
  apply infix_append_left; apply infix_cons_of
  apply infix_append_left; apply infix_cons_of
  exact infix_append_right _ h

/-- C10: every composed histogram query starts with the fixed head, in which
the hard-coded filter `WHERE DATE(submission_timestamp) = '2019-07-17'`
occurs while `@submission_date` does not occur at all — the histogram
output's date is independent of every input; every composed scalar query
instead contains the parameterised filter
`WHERE submission_date_s3 = @submission_date`. -/
theorem c10_date_filter :
    (∀ aq wc sc, hist_generate_sql aq wc sc =
      histFixedHead ++ ('\n' :: histSlotTail aq wc sc)) ∧
    histDateLit <:+: histFixedHead ∧
    firstIdx (("@submission_date").data) histFixedHead = none ∧
    (∀ aq A qt ap sc, scalarParamLit <:+: scalar_generate_sql aq A qt ap sc) := by
  refine ⟨?_, ?_, ?_, ?_⟩
  · intro aq wc sc
    rw [hist_generate_sql_decomp]
    unfold histFixedHead histSlotTail
    simp only [List.append_assoc, List.cons_append]
  · unfold histFixedHead
    apply infix_append_left; apply infix_cons_of
    apply infix_append_left; apply infix_cons_of
    apply infix_append_left; apply infix_cons_of
    apply infix_append_left; apply infix_cons_of
    apply infix_append_left; apply infix_cons_of
    apply infix_append_left; apply infix_cons_of
    apply infix_append_left; apply infix_cons_of
    apply infix_append_left; apply infix_cons_of
    exact infix_append_right _ (by decide)
  · unfold histFixedHead
    apply fi_none_chain (by decide) (by decide)
    apply fi_none_chain (by decide) (by decide)
    apply fi_none_chain (by decide) (by decide)
    apply fi_none_chain (by decide) (by decide)
    apply fi_none_chain (by decide) (by decide)
    apply fi_none_chain (by decide) (by decide)
    apply fi_none_chain (by decide) (by decide)
    apply fi_none_chain (by decide) (by decide)
    apply fi_none_chain (by decide) (by decide)
    decide
  · intro aq A qt ap sc
    exact infix_scalar_chunk3 _ _ _ _ _ (by decide)

/-!  Claim C5: composition with an empty probe set. -/

theorem infix_scalar_slot_select {m : Str} (aq A qt ap sc : Str)
    (h : m <:+: clw (sgen5c2 ++ (sc ++ sgen6c0))) :
    m <:+: scalar_generate_sql aq A qt ap sc := by
  rw [scalar_generate_sql_decomp]
  apply infix_append_left; apply infix_cons_of
  apply infix_append_left; apply infix_cons_of
  apply infix_append_left; apply infix_cons_of
  apply infix_append_left; apply infix_cons_of
  apply infix_append_left; apply infix_cons_of
  apply infix_append_left; apply infix_cons_of
  apply infix_append_left; apply infix_cons_of
  apply infix_append_left; apply infix_cons_of
  apply infix_append_left; apply infix_cons_of
  apply infix_append_left; apply infix_cons_of
  apply infix_append_left; apply infix_cons_of
  apply infix_append_left; apply infix_cons_of
  apply infix_append_left; apply infix_cons_of
  apply infix_append_left; apply infix_cons_of
  apply infix_append_left; apply infix_cons_of
  exact infix_append_right _ h

/-- The degenerate empty array-of-structs literal of the scalar path. -/
def c5emptyArr : Str := (">> [\n\n            ] AS scalar_aggregates").data

/-- The final-selection clause of the scalar path. -/
def c5selectLit : Str :=
  ("SELECT\n            * EXCEPT(_n)\n        FROM\n            windowed").data

def c5outScalar : Str :=
  scalar_generate_sql []
    (get_scalar_probes_sql_strings ⟨[], [], []⟩ (("scalar").data)).probes_string
    (("deduplicated").data) [] ssselect0

def c5outKeyed : Str :=
  scalar_generate_sql
    ((get_scalar_probes_sql_strings ⟨[], [], []⟩
        (("keyed-scalar").data)).additional_queries.getD [])
    (get_scalar_probes_sql_strings ⟨[], [], []⟩ (("keyed-scalar").data)).probes_string
    ((get_scalar_probes_sql_strings ⟨[], [], []⟩
        (("keyed-scalar").data)).querying_table.getD (("deduplicated").data))
    ((get_scalar_probes_sql_strings ⟨[], [], []⟩
        (("keyed-scalar").data)).additional_partitions.getD [])
    (get_scalar_probes_sql_strings ⟨[], [], []⟩ (("keyed-scalar").data)).select_clause

def c5outHist : Str :=
  scalar_generate_sql []
    (get_histogram_probes_sql_strings_scalarfile [] (("histogram").data)).probes_string
    (("deduplicated").data) []
    (get_histogram_probes_sql_strings_scalarfile [] (("histogram").data)).select_clause

/-- C5: with an empty probe set, every path of the scalar generator's
composers still fills its clause slots and the per-probe array-of-structs
region degenerates to an empty join: the scalar path's probes string
collapses to header plus closer, the keyed path's additional queries
collapse around an empty join, and each histogram subtype's probes string
keeps its value array while the per-probe join is empty; the driver returns
a complete query on each selector, the scalar output containing the
deduplication and windowed clauses, the final selection and a syntactically
well-formed empty array literal. -/
theorem c5_empty_probes :
    ((get_scalar_probes_sql_strings ⟨[], [], []⟩ (("scalar").data)).probes_string
        = ssprobes0 ++ ssprobes1 ∧
     scalarMain (("scalar").data) ⟨[], [], []⟩ [] = .ok c5outScalar ∧
     c5emptyArr <:+: c5outScalar ∧
     (∃ i, firstIdx dedupMarker c5outScalar = some i) ∧
     (∃ i, firstIdx windowedMarker c5outScalar = some i) ∧
     c5selectLit <:+: c5outScalar) ∧
    ((get_keyed_scalar_probes_sql_string []).additional_queries
        = some ((skaddq0 ++ []) ++ skaddq1) ∧
     scalarMain (("keyed-scalar").data) ⟨[], [], []⟩ [] = .ok c5outKeyed ∧
     (∃ i, firstIdx dedupMarker c5outKeyed = some i) ∧
     (∃ i, firstIdx windowedMarker c5outKeyed = some i)) ∧
    ((get_histogram_probes_sql_strings_scalarfile [] (("histogram").data)).probes_string
        = (((shprobes0 ++ svalArrDefault) ++ shprobes1) ++ []) ++ shprobes2 ∧
     (get_histogram_probes_sql_strings_scalarfile []
        (("string-histogram").data)).probes_string
        = (((shprobes0 ++ svalArrString) ++ shprobes1) ++ []) ++ shprobes2 ∧
     (get_histogram_probes_sql_strings_scalarfile []
        (("keyed-histogram").data)).probes_string
        = (((shprobes0 ++ svalArrKeyed) ++ shprobes1) ++ []) ++ shprobes2 ∧
     scalarMain (("histogram").data) ⟨[], [], []⟩ [] = .ok c5outHist ∧
     (∃ i, firstIdx dedupMarker c5outHist = some i) ∧
     (∃ i, firstIdx windowedMarker c5outHist = some i)) := by
  refine ⟨⟨by decide, rfl, ?_, ?_, ?_, ?_⟩, ⟨rfl, rfl, ?_, ?_⟩,
    ⟨rfl, rfl, rfl, rfl, ?_, ?_⟩⟩
  · exact infix_scalar_slot_aggregates _ _ _ _ _ (by decide)
  · obtain ⟨i, j, hi, hj, hij⟩ := c3_scalar_slots []
      (get_scalar_probes_sql_strings ⟨[], [], []⟩ (("scalar").data)).probes_string
      (("deduplicated").data) [] ssselect0
    exact ⟨i, hi⟩
  · obtain ⟨i, j, hi, hj, hij⟩ := c3_scalar_slots []
      (get_scalar_probes_sql_strings ⟨[], [], []⟩ (("scalar").data)).probes_string
      (("deduplicated").data) [] ssselect0
    exact ⟨j, hj⟩
  · exact infix_scalar_slot_select _ _ _ _ _ (by decide)
  · obtain ⟨i, j, hi, hj, hij⟩ := c3_scalar_slots _ _ _ _ _
    exact ⟨i, hi⟩
  · obtain ⟨i, j, hi, hj, hij⟩ := c3_scalar_slots _ _ _ _ _
    exact ⟨j, hj⟩
  · obtain ⟨i, j, hi, hj, hij⟩ := c3_scalar_slots _ _ _ _ _
    exact ⟨i, hi⟩
  · obtain ⟨i, j, hi, hj, hij⟩ := c3_scalar_slots _ _ _ _ _
    exact ⟨j, hj⟩
